import Mathlib

/-!
Verification development for the synthetic insider-threat dataset generator.

The Python sources are shallowly embedded: floats become `ℚ`, Python ints
become `Int` (or `Nat` where the source value is manifestly non-negative),
and every random draw of the source (`np.random.random`, `np.random.poisson`,
`random.randint`, ...) becomes an explicit input field of a "draws" record,
holding the realized value of that draw.  Support constraints of the
distributions (e.g. `np.random.random() ∈ [0,1)`) are stated as hypotheses
where a theorem needs them.  Fallible code (the `np.random.randint(1, hi)`
call that raises on an empty range, the `strptime` parse in the noise
injector) is embedded with `Option`.
-/

/-- Python `int(x)`: truncation toward zero. -/
def pyInt (q : ℚ) : Int :=
  if 0 ≤ q then ⌊q⌋ else ⌈q⌉

/-- Python `random.randint(low, high)` (both endpoints inclusive), driven by a
natural-number oracle `r`; the realized value always lies in `[low, high]`
when `low ≤ high`. -/
def pyRandint (low high : Int) (r : Nat) : Int :=
  low + (r : Int) % (high - low + 1)

/-- NumPy `np.random.randint(low, high)` (high exclusive), driven by an
oracle `r`.  NumPy raises `ValueError` when `low >= high`; that failure is
`none`. -/
def npRandint (low high : Nat) (r : Nat) : Option Nat :=
  if low < high then some (low + r % (high - low)) else none

/-- NumPy `np.random.choice(l)` / `np.random.choice(l, p=...)`: returns one
element of `l`; the oracle `r` selects which one. -/
def choiceList (l : List Nat) (r : Nat) : Nat :=
  l.getD (r % l.length) 0

/-- Python `"; ".join(changes)`. -/
def joinSemicolon : List String → String
  | [] => ""
  | [s] => s
  | s :: rest => s ++ "; " ++ joinSemicolon rest

/-- Two-digit zero padding, as in `strftime("%H:%M")`. -/
def pad2 (n : Nat) : String :=
  if n < 10 then "0" ++ toString n else toString n

/-- `strftime("%H:%M")` on a time of day. -/
def formatHHMM (h m : Nat) : String :=
  pad2 h ++ ":" ++ pad2 m

/-- Split a character list on `':'`. -/
def splitOnColon : List Char → List (List Char)
  | [] => [[]]
  | c :: rest =>
    match splitOnColon rest with
    | [] => [[c]]
    | g :: gs => if c = ':' then [] :: g :: gs else (c :: g) :: gs

/-- Decimal digit value of a character, if it is a digit. -/
def digitVal (c : Char) : Option Nat :=
  if c.isDigit then some (c.toNat - 48) else none

/-- A one- or two-digit decimal numeral. -/
def parseNat2 : List Char → Option Nat
  | [c] => digitVal c
  | [c1, c2] => do
    let a ← digitVal c1
    let b ← digitVal c2
    pure (a * 10 + b)
  | _ => none

/-- `datetime.strptime(s, "%H:%M")`: two colon-separated fields of one or two
digits, hour below 24, minute below 60; `none` models the `ValueError` the
source catches. -/
def parseHHMM (s : String) : Option (Nat × Nat) :=
  match splitOnColon s.toList with
  | [hs, ms] =>
    match parseNat2 hs, parseNat2 ms with
    | some h, some m => if h ≤ 23 ∧ m ≤ 59 then some (h, m) else none
    | _, _ => none
  | _ => none

/-- Static per-employee attributes consumed by the samplers. -/
structure Employee where
  emp_id : String
  behavioral_group : String
  origin_country : String
  classification : Nat
deriving Repr, DecidableEq

/-! ## Travel activity generator (`travel_activity_generator.py`) -/

/-- The behavioral-pattern fields the travel generator reads. -/
structure TravelPattern where
  travel_likelihood : ℚ
deriving Repr, DecidableEq

/-- An open trip, as stored in `self.employee_trips[emp_id]`. -/
structure Trip where
  country : String
  start_date : Int
  duration : Nat
  is_official : Nat
  origin_country : String
deriving Repr, DecidableEq

/-- One emitted travel sub-record. -/
structure TravelRecord where
  is_abroad : Nat
  trip_day_number : Option Int
  country_name : Option String
  is_hostile_country_trip : Nat
  hostility_country_level : Nat
  is_official_trip : Nat
deriving Repr, DecidableEq

/-- `_no_travel_activity`. -/
def noTravelActivity : TravelRecord :=
  { is_abroad := 0
    trip_day_number := none
    country_name := none
    is_hostile_country_trip := 0
    hostility_country_level := 0
    is_official_trip := 0 }

/-- `_get_hostility_level`: first level of `Config.HOSTILE_COUNTRIES` (a
level-keyed table, iterated in insertion order) whose country list contains
`country`; 0 when none does. -/
def getHostilityLevel (table : List (Nat × List String)) (country : String) : Nat :=
  match table.find? (fun p => country ∈ p.2) with
  | some p => p.1
  | none => 0

/-- Realized random draws of one `generate_travel_activity` call. -/
structure TravelDraws where
  /-- `np.random.random()` compared against the travel likelihood. -/
  start_rand : ℚ
  /-- realized `_choose_destination` result. -/
  country : String
  /-- `np.random.choice([0,1], p=[0.3,0.7])`. -/
  official_draw : Nat
  /-- `np.random.random() < 0.6` gate for origin-country trips. -/
  origin_gate : Bool
  /-- `np.random.random() > 0.8 ** hostility_level` gate. -/
  hostile_official_gate : Bool
  /-- `np.random.randint(min_duration, max_duration + 1)`, in `[1, 14]`. -/
  duration : Nat
deriving Repr

/-- `_handle_existing_trip`: continuation or deletion of an open trip.
Returns the updated `employee_trips` entry and the emitted record. -/
def handleExistingTrip (table : List (Nat × List String)) (trip : Trip)
    (date : Int) : Option Trip × TravelRecord :=
  let days_since_start : Int := date - trip.start_date
  if days_since_start < (trip.duration : Int) then
    let hostility_level := getHostilityLevel table trip.country
    (some trip,
      { is_abroad := 1
        trip_day_number := some (days_since_start + 1)
        country_name := some trip.country
        is_hostile_country_trip := if hostility_level > 0 then 1 else 0
        hostility_country_level := hostility_level
        is_official_trip := trip.is_official })
  else
    (none, noTravelActivity)

/-- `_should_start_new_trip`: Bernoulli gate on the group's travel
likelihood, boosted 1.5× for malicious employees. -/
def shouldStartNewTrip (pattern : TravelPattern) (is_malicious : Bool)
    (d : TravelDraws) : Bool :=
  let travel_likelihood :=
    if is_malicious then pattern.travel_likelihood * (3 / 2)
    else pattern.travel_likelihood
  d.start_rand < travel_likelihood

/-- `_start_new_trip`: creates the trip entry and emits day 1. -/
def startNewTrip (table : List (Nat × List String)) (employee : Employee)
    (date : Int) (d : TravelDraws) : Option Trip × TravelRecord :=
  let country := d.country
  let is_official0 := d.official_draw
  let is_origin_trip : Nat := if country = employee.origin_country then 1 else 0
  let is_official1 := if is_origin_trip = 1 ∧ d.origin_gate then 0 else is_official0
  let hostility_level := getHostilityLevel table country
  let is_official2 :=
    if hostility_level > 0 ∧ d.hostile_official_gate then 0 else is_official1
  let trip : Trip :=
    { country := country
      start_date := date
      duration := d.duration
      is_official := is_official2
      origin_country := employee.origin_country }
  (some trip,
    { is_abroad := 1
      trip_day_number := some 1
      country_name := some country
      is_hostile_country_trip := if hostility_level > 0 then 1 else 0
      hostility_country_level := hostility_level
      is_official_trip := is_official2 })

/-- `generate_travel_activity` for one employee: the per-employee slot of
`self.employee_trips` is threaded as `st`. -/
def generate_travel_activity (table : List (Nat × List String))
    (pattern : TravelPattern) (employee : Employee) (st : Option Trip)
    (date : Int) (is_malicious : Bool) (d : TravelDraws) :
    Option Trip × TravelRecord :=
  match st with
  | some trip => handleExistingTrip table trip date
  | none =>
    if shouldStartNewTrip pattern is_malicious d then
      startNewTrip table employee date d
    else
      (none, noTravelActivity)

/-- Run `generate_travel_activity` for `n` consecutive calendar days starting
at `date`, with `draws k` the realized randomness of the `k`-th call. -/
def runTravel (table : List (Nat × List String)) (pattern : TravelPattern)
    (employee : Employee) (draws : Nat → TravelDraws) (st : Option Trip)
    (date : Int) (is_malicious : Bool) : Nat → List TravelRecord × Option Trip
  | 0 => ([], st)
  | n + 1 =>
    let step := generate_travel_activity table pattern employee st date
      is_malicious (draws 0)
    let rest := runTravel table pattern employee (fun k => draws (k + 1))
      step.1 (date + 1) is_malicious n
    (step.2 :: rest.1, rest.2)

/-- The continuation record a trip emits on its `i`-th day. -/
def tripDayRecord (table : List (Nat × List String)) (trip : Trip)
    (i : Int) : TravelRecord :=
  { is_abroad := 1
    trip_day_number := some i
    country_name := some trip.country
    is_hostile_country_trip :=
      if getHostilityLevel table trip.country > 0 then 1 else 0
    hostility_country_level := getHostilityLevel table trip.country
    is_official_trip := trip.is_official }

lemma runTravel_succ (table : List (Nat × List String)) (pattern : TravelPattern)
    (employee : Employee) (draws : Nat → TravelDraws) (st : Option Trip)
    (date : Int) (mal : Bool) (n : Nat) :
    runTravel table pattern employee draws st date mal (n + 1) =
      ((generate_travel_activity table pattern employee st date mal (draws 0)).2 ::
        (runTravel table pattern employee (fun k => draws (k + 1))
          (generate_travel_activity table pattern employee st date mal (draws 0)).1
          (date + 1) mal n).1,
       (runTravel table pattern employee (fun k => draws (k + 1))
          (generate_travel_activity table pattern employee st date mal (draws 0)).1
          (date + 1) mal n).2) := rfl

lemma generate_travel_activity_cont (table : List (Nat × List String))
    (pattern : TravelPattern) (employee : Employee) (trip : Trip) (date : Int)
    (mal : Bool) (d : TravelDraws)
    (hlt : date - trip.start_date < (trip.duration : Int)) :
    generate_travel_activity table pattern employee (some trip) date mal d =
      (some trip, tripDayRecord table trip (date - trip.start_date + 1)) := by
  simp [generate_travel_activity, handleExistingTrip, hlt, tripDayRecord]

lemma generate_travel_activity_end (table : List (Nat × List String))
    (pattern : TravelPattern) (employee : Employee) (trip : Trip) (date : Int)
    (mal : Bool) (d : TravelDraws)
    (hge : ¬ date - trip.start_date < (trip.duration : Int)) :
    generate_travel_activity table pattern employee (some trip) date mal d =
      (none, noTravelActivity) := by
  simp [generate_travel_activity, handleExistingTrip, hge]

lemma runTravel_open_trip (table : List (Nat × List String))
    (pattern : TravelPattern) (employee : Employee) (mal : Bool) (t : Trip) :
    ∀ (m : Nat) (draws : Nat → TravelDraws) (j : Nat), j + m = t.duration →
    runTravel table pattern employee draws (some t)
        (t.start_date + (j : Int)) mal (m + 1) =
      ((List.range m).map
          (fun (k : Nat) => tripDayRecord table t ((j : Int) + (k : Int) + 1)) ++
        [noTravelActivity], none) := by
  intro m
  induction m with
  | zero =>
    intro draws j hj
    have hge : ¬ (t.start_date + (j : Int)) - t.start_date < (t.duration : Int) := by
      omega
    rw [runTravel_succ, generate_travel_activity_end table pattern employee t _ mal _ hge]
    simp [runTravel]
  | succ m ih =>
    intro draws j hj
    have hlt : (t.start_date + (j : Int)) - t.start_date < (t.duration : Int) := by
      omega
    rw [runTravel_succ, generate_travel_activity_cont table pattern employee t _ mal _ hlt]
    have harg : t.start_date + (j : Int) - t.start_date + 1 = (j : Int) + 1 := by ring
    have hcastdate : t.start_date + (j : Int) + 1 =
        t.start_date + ((j + 1 : Nat) : Int) := by push_cast; ring
    rw [harg, hcastdate, ih (fun k => draws (k + 1)) (j + 1) (by omega)]
    have hmap : (List.range (m + 1)).map
        (fun (k : Nat) => tripDayRecord table t ((j : Int) + (k : Int) + 1)) =
        tripDayRecord table t ((j : Int) + 1) ::
          (List.range m).map
            (fun (k : Nat) => tripDayRecord table t (((j + 1 : Nat) : Int) + (k : Int) + 1)) := by
      rw [List.range_succ_eq_map, List.map_cons, List.map_map]
      refine congrArg₂ _ (by simp) ?_
      apply List.map_congr_left
      intro k _
      show tripDayRecord table t ((j : Int) + ((k + 1 : Nat) : Int) + 1) = _
      congr 1
      push_cast
      ring
    rw [hmap]
    rfl

/-- C1: travel state machine.  With no open trip at day `d0`, the start gate
firing and the drawn duration `D ≥ 1`, advancing once per consecutive
calendar day emits records carrying `trip_day_number` `1, 2, ..., D` on
those `D` calls (`tripDayRecord` has `is_abroad = 1`), and the next call
deletes the trip (final tracker state `none`) and emits `noTravelActivity`,
whose fields are `is_abroad = 0`, `trip_day_number = none`,
`country_name = none`, hostility tier and official flag `0`. -/
theorem travel_trip_lifecycle (table : List (Nat × List String))
    (pattern : TravelPattern) (employee : Employee) (mal : Bool)
    (draws : Nat → TravelDraws) (d0 : Int) (D : Nat) (T : Trip)
    (hD : 1 ≤ D)
    (hgate : shouldStartNewTrip pattern mal (draws 0) = true)
    (hdur : (draws 0).duration = D)
    (hT : (startNewTrip table employee d0 (draws 0)).1 = some T) :
    runTravel table pattern employee draws none d0 mal (D + 1) =
      ((List.range D).map
          (fun (k : Nat) => tripDayRecord table T ((k : Int) + 1)) ++
        [noTravelActivity], none) := by
  have hTval : T = { country := (draws 0).country
                     start_date := d0
                     duration := (draws 0).duration
                     is_official :=
                       (startNewTrip table employee d0 (draws 0)).2.is_official_trip
                     origin_country := employee.origin_country } := by
    simp [startNewTrip] at hT ⊢
    exact hT.symm
  obtain ⟨D', hD'⟩ : ∃ D', D = D' + 1 := ⟨D - 1, by omega⟩
  have hstart : generate_travel_activity table pattern employee none d0 mal
      (draws 0) = startNewTrip table employee d0 (draws 0) := by
    simp [generate_travel_activity, hgate]
  have hfirst : (startNewTrip table employee d0 (draws 0)).2 =
      tripDayRecord table T 1 := by
    rw [hTval]
    simp [startNewTrip, tripDayRecord]
  have hdate : d0 + 1 = T.start_date + ((1 : Nat) : Int) := by
    rw [hTval]; push_cast; ring
  have hdurT : (1 : Nat) + D' = T.duration := by
    rw [hTval]; simp [hdur]; omega
  rw [hD', runTravel_succ, hstart, hT, hfirst, hdate,
    runTravel_open_trip table pattern employee mal T D' (fun k => draws (k + 1)) 1 hdurT]
  have hmap : (List.range (D' + 1)).map
      (fun (k : Nat) => tripDayRecord table T ((k : Int) + 1)) =
      tripDayRecord table T 1 ::
        (List.range D').map
          (fun (k : Nat) => tripDayRecord table T (((1 : Nat) : Int) + (k : Int) + 1)) := by
    rw [List.range_succ_eq_map, List.map_cons, List.map_map]
    refine congrArg₂ _ (by simp) ?_
    apply List.map_congr_left
    intro k _
    show tripDayRecord table T (((k + 1 : Nat) : Int) + 1) = _
    congr 1
    push_cast
    ring
  rw [hmap]
  rfl

theorem travel_trip_lifecycle_witness :
    1 ≤ 2 ∧
    runTravel [(3, ["Iran"])] ⟨1⟩ ⟨"E1", "A", "Israel", 1⟩
        (fun _ => ⟨0, "Iran", 1, false, false, 2⟩) none 0 false (2 + 1) =
      ((List.range 2).map
          (fun (k : Nat) => tripDayRecord [(3, ["Iran"])]
            ⟨"Iran", 0, 2, 1, "Israel"⟩ ((k : Int) + 1)) ++
        [noTravelActivity], none) :=
  ⟨by decide,
   travel_trip_lifecycle [(3, ["Iran"])] ⟨1⟩ ⟨"E1", "A", "Israel", 1⟩ false
     (fun _ => ⟨0, "Iran", 1, false, false, 2⟩) 0 2
     ⟨"Iran", 0, 2, 1, "Israel"⟩ (by decide) (by decide) (by decide) (by decide)⟩

/-! ## Risk indicator calculator (`risk_indicators.py`) -/

/-- One emitted print sub-record. -/
structure PrintRecord where
  num_print_commands : Int
  total_printed_pages : Int
  num_print_commands_off_hours : Int
  num_printed_pages_off_hours : Int
  num_color_prints : Int
  num_bw_prints : Int
  ratio_color_prints : ℚ
  printed_from_other : Nat
  print_campuses : Nat
deriving Repr, DecidableEq

/-- One emitted burn sub-record. -/
structure BurnRecord where
  num_burn_requests : Int
  max_request_classification : Nat
  avg_request_classification : ℚ
  num_burn_requests_off_hours : Int
  total_burn_volume_mb : Int
  total_files_burned : Int
  burned_from_other : Nat
  burn_campuses : Nat
deriving Repr, DecidableEq

/-- `calculate_risk_travel_indicator`. -/
def calculate_risk_travel_indicator (travel_data : TravelRecord)
    (print_data : PrintRecord) (burn_data : BurnRecord) : Nat :=
  if travel_data.is_abroad = 1 ∧
      travel_data.is_official_trip = 0 ∧
      travel_data.is_hostile_country_trip = 1 ∧
      (burn_data.total_files_burned > 0 ∨ print_data.total_printed_pages > 0)
  then 1 else 0

/-- C2: the travel risk indicator is 1 exactly when the employee is abroad on
an unofficial trip to a hostile destination (tier `> 0`, equivalently
`is_hostile_country_trip = 1` for any record whose hostility flag is
consistent with its tier, as the travel generator emits) and burning or
printing occurred; in every other combination it is 0. -/
theorem risk_travel_indicator_iff (travel : TravelRecord) (pr : PrintRecord)
    (b : BurnRecord)
    (hcons : travel.is_hostile_country_trip =
      if travel.hostility_country_level > 0 then 1 else 0) :
    (calculate_risk_travel_indicator travel pr b = 1 ↔
      (travel.is_abroad = 1 ∧ travel.is_official_trip = 0 ∧
        travel.hostility_country_level > 0 ∧
        (b.total_files_burned > 0 ∨ pr.total_printed_pages > 0))) ∧
    (calculate_risk_travel_indicator travel pr b = 0 ↔
      ¬ (travel.is_abroad = 1 ∧ travel.is_official_trip = 0 ∧
        travel.hostility_country_level > 0 ∧
        (b.total_files_burned > 0 ∨ pr.total_printed_pages > 0))) := by
  have hh : travel.is_hostile_country_trip = 1 ↔
      0 < travel.hostility_country_level := by
    rw [hcons]; split <;> simp_all
  unfold calculate_risk_travel_indicator
  split
  · next h =>
    simp only [hh] at h
    simp [h]
  · next h =>
    simp only [hh] at h
    simp [h]

theorem risk_travel_indicator_iff_witness :
    calculate_risk_travel_indicator ⟨1, some 1, some "H", 1, 3, 0⟩
      ⟨0, 0, 0, 0, 0, 0, 0, 0, 0⟩ ⟨1, 3, 2, 0, 10, 2, 0, 1⟩ = 1 :=
  (risk_travel_indicator_iff ⟨1, some 1, some "H", 1, 3, 0⟩
      ⟨0, 0, 0, 0, 0, 0, 0, 0, 0⟩ ⟨1, 3, 2, 0, 10, 2, 0, 1⟩ (by decide)).1.2
    ⟨rfl, rfl, by decide, Or.inl (by decide)⟩

/-! ## Print activity generator (`print_activity_generator.py`) -/

/-- `pattern['print_volume']`. -/
structure PrintVolume where
  commands_mean : ℚ
  pages_mean : ℚ
  color_ratio : ℚ
deriving Repr, DecidableEq

/-- The behavioral-pattern fields the print generator reads;
`off_hours_tendency` is optional (`pattern.get('off_hours_tendency', 0.1)`). -/
structure PrintPattern where
  print_likelihood : ℚ
  print_volume : PrintVolume
  off_hours_tendency : Option ℚ
deriving Repr, DecidableEq

/-- Realized random draws of one `generate_print_activity` call. -/
structure PrintDraws where
  /-- `np.random.random()` for the abroad non-malicious 0.98 gate. -/
  abroad_nonmal_rand : ℚ
  /-- `np.random.random()` for the abroad malicious 0.85 gate. -/
  abroad_mal_rand : ℚ
  /-- `np.random.random()` compared against `print_likelihood`. -/
  likelihood_rand : ℚ
  /-- realized `_get_malicious_multiplier` value: `uniform(0.8, 1.2)` for
  malicious, `uniform(0.7, 1.3)` otherwise. -/
  mult_rand : ℚ
  /-- `np.random.poisson(commands_mean)`. -/
  commands_poisson : Nat
  /-- realized `np.random.gamma(shape, scale)` value. -/
  pages_gamma : ℚ
  /-- `np.random.poisson(1)`. -/
  extra_poisson : Nat
  /-- realized `np.random.normal(base_ratio, 0.1)` value. -/
  color_normal : ℚ
  /-- `np.random.random()` compared against the off-hours tendency. -/
  off_rand : ℚ
  /-- realized off-hours fraction: `uniform(0.3, 0.7)` malicious,
  `uniform(0.1, 0.4)` otherwise. -/
  off_ratio : ℚ
  /-- `np.random.random()` for the malicious 0.25 multi-campus gate. -/
  campus_mal_rand : ℚ
  /-- selector for `np.random.choice([2, 3])`. -/
  campus_choice_r : Nat
  /-- `np.random.random()` for the 0.05 multi-campus gate. -/
  campus_reg_rand : ℚ
deriving Repr, DecidableEq

/-- Support constraints of the distributions behind `PrintDraws`. -/
def PrintDraws.Feasible (mal : Bool) (d : PrintDraws) : Prop :=
  0 ≤ d.abroad_nonmal_rand ∧ d.abroad_nonmal_rand < 1 ∧
  0 ≤ d.abroad_mal_rand ∧ d.abroad_mal_rand < 1 ∧
  0 ≤ d.likelihood_rand ∧ d.likelihood_rand < 1 ∧
  (if mal then (4 / 5 : ℚ) ≤ d.mult_rand ∧ d.mult_rand < 6 / 5
   else (7 / 10 : ℚ) ≤ d.mult_rand ∧ d.mult_rand < 13 / 10) ∧
  0 ≤ d.pages_gamma ∧
  (if mal then (3 / 10 : ℚ) ≤ d.off_ratio ∧ d.off_ratio < 7 / 10
   else (1 / 10 : ℚ) ≤ d.off_ratio ∧ d.off_ratio < 2 / 5) ∧
  0 ≤ d.off_rand ∧ d.off_rand < 1 ∧
  0 ≤ d.campus_mal_rand ∧ d.campus_mal_rand < 1 ∧
  0 ≤ d.campus_reg_rand ∧ d.campus_reg_rand < 1

instance (mal : Bool) (d : PrintDraws) : Decidable (PrintDraws.Feasible mal d) := by
  unfold PrintDraws.Feasible
  infer_instance

/-- `_empty_print_activity`. -/
def emptyPrintActivity : PrintRecord :=
  { num_print_commands := 0
    total_printed_pages := 0
    num_print_commands_off_hours := 0
    num_printed_pages_off_hours := 0
    num_color_prints := 0
    num_bw_prints := 0
    ratio_color_prints := 0
    printed_from_other := 0
    print_campuses := 0 }

/-- `_get_malicious_multiplier`: the realized uniform draw (support depends
on the malicious flag, see `PrintDraws.Feasible`). -/
def get_malicious_multiplier (_is_malicious : Bool) (d : PrintDraws) : ℚ :=
  d.mult_rand

/-- `_calculate_color_ratio`: clamp the realized normal draw to `[0, 1]`. -/
def calculate_color_ratio (_base_ratio : ℚ) (draw : ℚ) : ℚ :=
  max 0 (min 1 draw)

/-- `_calculate_off_hours_printing`. -/
def calculate_off_hours_printing (num_commands total_pages : Int)
    (pattern : PrintPattern) (is_malicious : Bool) (d : PrintDraws) :
    Int × Int :=
  let off_hours_tendency := pattern.off_hours_tendency.getD (1 / 10)
  let off_hours_tendency :=
    if is_malicious then min (2 / 5) (off_hours_tendency * (9 / 5))
    else off_hours_tendency
  if d.off_rand < off_hours_tendency then
    let off_hours_ratio := d.off_ratio
    (max 0 (pyInt ((num_commands : ℚ) * off_hours_ratio)),
     max 0 (pyInt ((total_pages : ℚ) * off_hours_ratio)))
  else
    (0, 0)

/-- `_calculate_multi_campus_printing`: (print_campuses, printed_from_other). -/
def calculate_multi_campus_printing (_employee : Employee)
    (is_malicious : Bool) (d : PrintDraws) : Nat × Nat :=
  if is_malicious ∧ d.campus_mal_rand < 1 / 4 then
    (choiceList [2, 3] d.campus_choice_r, 1)
  else if d.campus_reg_rand < 1 / 20 then
    (2, 1)
  else
    (1, 0)

/-- `generate_print_activity` (the `date` argument of the source is unused
by its body). -/
def generate_print_activity (patterns : String → PrintPattern)
    (employee : Employee) (is_malicious is_abroad : Bool) (d : PrintDraws) :
    PrintRecord :=
  if is_abroad ∧ ¬ is_malicious ∧ d.abroad_nonmal_rand < 49 / 50 then
    emptyPrintActivity
  else if is_abroad ∧ is_malicious ∧ d.abroad_mal_rand < 17 / 20 then
    emptyPrintActivity
  else
    let pattern := patterns employee.behavioral_group
    if d.likelihood_rand > pattern.print_likelihood then
      emptyPrintActivity
    else
      let multiplier := get_malicious_multiplier is_malicious d
      let base_commands : Int := max 1 (d.commands_poisson : Int)
      let pages_base : ℚ :=
        if is_malicious then pattern.print_volume.pages_mean * 5
        else pattern.print_volume.pages_mean
      let total_pages : Int := max 1 (pyInt (d.pages_gamma * multiplier))
      let num_commands : Int :=
        if (total_pages : ℚ) > pages_base * 2 then
          base_commands + (d.extra_poisson : Int)
        else
          base_commands
      let color_ratio := calculate_color_ratio pattern.print_volume.color_ratio
        d.color_normal
      let oh := calculate_off_hours_printing num_commands total_pages pattern
        is_malicious d
      let mc := calculate_multi_campus_printing employee is_malicious d
      let num_color : Int := pyInt ((total_pages : ℚ) * color_ratio)
      let num_bw : Int := total_pages - num_color
      { num_print_commands := num_commands
        total_printed_pages := total_pages
        num_print_commands_off_hours := oh.1
        num_printed_pages_off_hours := oh.2
        num_color_prints := num_color
        num_bw_prints := num_bw
        ratio_color_prints := if total_pages > 0 then color_ratio else 0
        printed_from_other := mc.2
        print_campuses := mc.1 }

/-- A concrete employee used by witnesses. -/
def empA : Employee := ⟨"E001", "A", "Israel", 2⟩

/-- C4 (sampler part): every record emitted by the print sampler, the empty
record included, satisfies `num_color_prints + num_bw_prints =
total_printed_pages`.  (The noise pass does not preserve this identity; see
the counterexample.) -/
theorem print_color_split_sum (patterns : String → PrintPattern)
    (employee : Employee) (mal abroad : Bool) (d : PrintDraws) :
    (generate_print_activity patterns employee mal abroad d).num_color_prints +
      (generate_print_activity patterns employee mal abroad d).num_bw_prints =
      (generate_print_activity patterns employee mal abroad d).total_printed_pages := by
  unfold generate_print_activity
  split
  · rfl
  · split
    · rfl
    · simp only
      split
      · rfl
      · simp only
        omega

/-- Concrete print pattern for the C7 analysis. -/
def c7Patterns : String → PrintPattern := fun _ => ⟨1, ⟨2, 4, 1 / 10⟩, some (1 / 10)⟩

/-- Concrete draws for the C7 analysis: the `np.random.poisson(1)` extra
draw realizes as 2. -/
def c7Draws : PrintDraws :=
  { abroad_nonmal_rand := 1 / 2
    abroad_mal_rand := 1 / 2
    likelihood_rand := 1 / 2
    mult_rand := 1
    commands_poisson := 3
    pages_gamma := 20
    extra_poisson := 2
    color_normal := 1 / 2
    off_rand := 1 / 2
    off_ratio := 1 / 5
    campus_mal_rand := 1 / 2
    campus_choice_r := 0
    campus_reg_rand := 1 / 2 }

/-- C7 counterexample: feasible draws where the sampled page total exceeds
twice the base page mean, the base command draw is 3, and the emitted
command count is not `base + 1` (it is `base + 2`, the Poisson(1) draw
having realized as 2). -/
theorem print_extra_commands_counterexample :
    PrintDraws.Feasible false c7Draws ∧
    ((generate_print_activity c7Patterns empA false false c7Draws).total_printed_pages : ℚ) >
      (c7Patterns empA.behavioral_group).print_volume.pages_mean * 2 ∧
    max 1 (c7Draws.commands_poisson : Int) = 3 ∧
    (generate_print_activity c7Patterns empA false false c7Draws).num_print_commands ≠
      3 + 1 := by
  have heval : generate_print_activity c7Patterns empA false false c7Draws =
      { num_print_commands := 5
        total_printed_pages := 20
        num_print_commands_off_hours := 0
        num_printed_pages_off_hours := 0
        num_color_prints := 10
        num_bw_prints := 10
        ratio_color_prints := 1 / 2
        printed_from_other := 0
        print_campuses := 1 } := by
    norm_num [generate_print_activity, c7Patterns, c7Draws, empA,
      get_malicious_multiplier, calculate_color_ratio,
      calculate_off_hours_printing, calculate_multi_campus_printing,
      emptyPrintActivity, pyInt, choiceList]
  refine ⟨by norm_num [PrintDraws.Feasible, c7Draws], ?_,
    by norm_num [c7Draws], ?_⟩
  · rw [heval]; norm_num [c7Patterns, empA]
  · rw [heval]; norm_num

/-- C7 (amended): when the sampled total page count exceeds twice the
(malicious-adjusted) base page mean, the emitted command count is the base
command draw plus an independent `np.random.poisson(1)` draw (any
non-negative count, not always exactly one); otherwise it equals the base
draw. -/
theorem print_extra_commands_poisson (patterns : String → PrintPattern)
    (employee : Employee) (mal abroad : Bool) (d : PrintDraws)
    (h1 : ¬ (abroad ∧ ¬ mal ∧ d.abroad_nonmal_rand < 49 / 50))
    (h2 : ¬ (abroad ∧ mal ∧ d.abroad_mal_rand < 17 / 20))
    (h3 : ¬ (d.likelihood_rand > (patterns employee.behavioral_group).print_likelihood)) :
    (((generate_print_activity patterns employee mal abroad d).total_printed_pages : ℚ) >
        (if mal then (patterns employee.behavioral_group).print_volume.pages_mean * 5
         else (patterns employee.behavioral_group).print_volume.pages_mean) * 2 →
      (generate_print_activity patterns employee mal abroad d).num_print_commands =
        max 1 (d.commands_poisson : Int) + (d.extra_poisson : Int)) ∧
    (¬ (((generate_print_activity patterns employee mal abroad d).total_printed_pages : ℚ) >
        (if mal then (patterns employee.behavioral_group).print_volume.pages_mean * 5
         else (patterns employee.behavioral_group).print_volume.pages_mean) * 2) →
      (generate_print_activity patterns employee mal abroad d).num_print_commands =
        max 1 (d.commands_poisson : Int)) := by
  unfold generate_print_activity
  rw [if_neg h1, if_neg h2, if_neg h3]
  simp only [get_malicious_multiplier]
  by_cases hc : ((max 1 (pyInt (d.pages_gamma * d.mult_rand)) : Int) : ℚ) >
      (if mal then (patterns employee.behavioral_group).print_volume.pages_mean * 5
       else (patterns employee.behavioral_group).print_volume.pages_mean) * 2
  · rw [if_pos hc]
    exact ⟨fun _ => rfl, fun h => absurd hc h⟩
  · rw [if_neg hc]
    exact ⟨fun h => absurd h hc, fun _ => rfl⟩

theorem print_extra_commands_poisson_witness :
    ((generate_print_activity c7Patterns empA false false c7Draws).total_printed_pages : ℚ) >
      (if false then (c7Patterns empA.behavioral_group).print_volume.pages_mean * 5
       else (c7Patterns empA.behavioral_group).print_volume.pages_mean) * 2 ∧
    (generate_print_activity c7Patterns empA false false c7Draws).num_print_commands =
      max 1 (c7Draws.commands_poisson : Int) + (c7Draws.extra_poisson : Int) := by
  have hgt : ((generate_print_activity c7Patterns empA false false c7Draws).total_printed_pages : ℚ) >
      (if false then (c7Patterns empA.behavioral_group).print_volume.pages_mean * 5
       else (c7Patterns empA.behavioral_group).print_volume.pages_mean) * 2 := by
    norm_num [generate_print_activity, c7Patterns, c7Draws, empA,
      get_malicious_multiplier, pyInt]
  exact ⟨hgt,
    (print_extra_commands_poisson c7Patterns empA false false c7Draws
      (by simp) (by simp)
      (by norm_num [c7Patterns, c7Draws])).1 hgt⟩

/-- Concrete print pattern with `print_likelihood = 0` for the C8 analysis. -/
def c8Patterns : String → PrintPattern := fun _ => ⟨0, ⟨2, 4, 1 / 10⟩, some (1 / 10)⟩

/-- Concrete feasible draws whose participation draw is exactly 0. -/
def c8Draws : PrintDraws :=
  { abroad_nonmal_rand := 1 / 2
    abroad_mal_rand := 1 / 2
    likelihood_rand := 0
    mult_rand := 1
    commands_poisson := 2
    pages_gamma := 3
    extra_poisson := 0
    color_normal := 1 / 2
    off_rand := 1 / 2
    off_ratio := 1 / 5
    campus_mal_rand := 1 / 2
    campus_choice_r := 0
    campus_reg_rand := 1 / 2 }

/-- C8 counterexample: with print likelihood 0, a feasible draw in which
`np.random.random()` realizes as exactly 0.0 defeats the strict `>` gate
(`0 > 0` is false) and the sampler emits a non-empty record. -/
theorem print_likelihood_zero_counterexample :
    (c8Patterns empA.behavioral_group).print_likelihood = 0 ∧
    PrintDraws.Feasible false c8Draws ∧
    generate_print_activity c8Patterns empA false false c8Draws ≠
      emptyPrintActivity := by
  have heval : generate_print_activity c8Patterns empA false false c8Draws =
      { num_print_commands := 2
        total_printed_pages := 3
        num_print_commands_off_hours := 0
        num_printed_pages_off_hours := 0
        num_color_prints := 1
        num_bw_prints := 2
        ratio_color_prints := 1 / 2
        printed_from_other := 0
        print_campuses := 1 } := by
    norm_num [generate_print_activity, c8Patterns, c8Draws, empA,
      get_malicious_multiplier, calculate_color_ratio,
      calculate_off_hours_printing, calculate_multi_campus_printing,
      emptyPrintActivity, pyInt, choiceList]
  refine ⟨by norm_num [c8Patterns, empA],
    by norm_num [PrintDraws.Feasible, c8Draws], ?_⟩
  rw [heval]
  simp [emptyPrintActivity]

/-- C8 (amended): if the group's print likelihood is 0, the sampler returns
the empty print record for every random draw whose participation draw is
strictly positive, i.e. for all draws except `np.random.random() = 0.0`
exactly. -/
theorem print_likelihood_zero_empty (patterns : String → PrintPattern)
    (employee : Employee) (mal abroad : Bool) (d : PrintDraws)
    (h0 : (patterns employee.behavioral_group).print_likelihood = 0)
    (hpos : 0 < d.likelihood_rand) :
    generate_print_activity patterns employee mal abroad d =
      emptyPrintActivity := by
  unfold generate_print_activity
  split
  · rfl
  · split
    · rfl
    · have hgt : d.likelihood_rand >
          (patterns employee.behavioral_group).print_likelihood := by
        rw [h0]; exact hpos
      rw [if_pos hgt]

theorem print_likelihood_zero_empty_witness :
    (c8Patterns empA.behavioral_group).print_likelihood = 0 ∧
    (0 : ℚ) < 1 / 2 ∧
    generate_print_activity c8Patterns empA false false
        { c8Draws with likelihood_rand := 1 / 2 } = emptyPrintActivity :=
  ⟨by norm_num [c8Patterns, empA], by norm_num,
   print_likelihood_zero_empty c8Patterns empA false false
     { c8Draws with likelihood_rand := 1 / 2 }
     (by norm_num [c8Patterns, empA]) (by norm_num)⟩

lemma pyInt_of_nonneg {q : ℚ} (h : 0 ≤ q) : pyInt q = ⌊q⌋ := by
  simp [pyInt, h]

lemma pyInt_nonneg {q : ℚ} (h : 0 ≤ q) : 0 ≤ pyInt q := by
  rw [pyInt_of_nonneg h]
  exact Int.floor_nonneg.mpr h

lemma pyInt_le_of_le_intCast {q : ℚ} {n : Int} (h0 : 0 ≤ q)
    (h : q ≤ (n : ℚ)) : pyInt q ≤ n := by
  rw [pyInt_of_nonneg h0]
  calc ⌊q⌋ ≤ ⌊(n : ℚ)⌋ := Int.floor_le_floor h
    _ = n := Int.floor_intCast n

/-! ## Burn activity generator (`burn_activity_generator.py`) -/

/-- `pattern['burn_params']`. -/
structure BurnParams where
  requests_mean : ℚ
  volume_mean : ℚ
  files_mean : ℚ
  high_classification : Bool
deriving Repr, DecidableEq

/-- The behavioral-pattern fields the burn generator reads. -/
structure BurnPattern where
  burn_likelihood : ℚ
  burn_params : BurnParams
  off_hours_tendency : Option ℚ
deriving Repr, DecidableEq

/-- Realized random draws of one `generate_burn_activity` call. -/
structure BurnDraws where
  /-- `np.random.random()` for the abroad non-malicious 0.99 gate. -/
  abroad_nonmal_rand : ℚ
  /-- `np.random.random()` for the abroad malicious 0.90 gate. -/
  abroad_mal_rand : ℚ
  /-- `np.random.random()` compared against the (possibly tripled) burn
  likelihood. -/
  likelihood_rand : ℚ
  /-- `np.random.poisson(requests_mean)`. -/
  requests_poisson : Nat
  /-- realized `np.random.uniform(1.5, 2.5)` value. -/
  requests_unif : ℚ
  /-- realized `np.random.lognormal(volume_mean, sigma)` value. -/
  volume_lognorm : ℚ
  /-- `np.random.poisson(files_mean)`. -/
  files_poisson : Nat
  /-- realized `np.random.uniform(1.8, 3.0)` value. -/
  files_unif : ℚ
  /-- selector for the `np.random.choice` increment of
  `_generate_classifications`. -/
  class_choice_r : Nat
  /-- oracles for the per-request `np.random.randint(1, max+1)` draws. -/
  class_randint : Nat → Nat
  /-- `np.random.random()` compared against the off-hours tendency. -/
  off_rand : ℚ
  /-- realized `np.random.uniform(0.3, 0.8)` value. -/
  off_ratio : ℚ
  /-- `np.random.random()` for the malicious 0.2 multi-campus gate. -/
  campus_rand : ℚ
  /-- selector for `np.random.choice([2, 3])`. -/
  campus_choice_r : Nat

/-- `_empty_burn_activity`. -/
def emptyBurnActivity : BurnRecord :=
  { num_burn_requests := 0
    max_request_classification := 0
    avg_request_classification := 0
    num_burn_requests_off_hours := 0
    total_burn_volume_mb := 0
    total_files_burned := 0
    burned_from_other := 0
    burn_campuses := 0 }

/-- The `max_classification` cap computed by `_generate_classifications`. -/
def burnMaxClassification (employee : Employee) (burn_params : BurnParams)
    (is_malicious : Bool) (d : BurnDraws) : Nat :=
  if burn_params.high_classification ∨ is_malicious then
    min 4 (employee.classification + choiceList [0, 1, 2] d.class_choice_r)
  else
    min employee.classification (choiceList [1, 2, 3] d.class_choice_r)

/-- The list comprehension
`[np.random.randint(1, max_classification + 1) for _ in range(n)]`; `none`
when any draw has an empty range (`ValueError`). -/
def drawClassList (cap : Nat) (f : Nat → Nat) : Nat → Option (List Nat)
  | 0 => some []
  | n + 1 => do
    let rest ← drawClassList cap f n
    let v ← npRandint 1 (cap + 1) (f n)
    pure (rest ++ [v])

/-- `_generate_classifications`. -/
def generate_classifications (employee : Employee) (num_requests : Nat)
    (burn_params : BurnParams) (is_malicious : Bool) (d : BurnDraws) :
    Option (List Nat) :=
  drawClassList (burnMaxClassification employee burn_params is_malicious d)
    d.class_randint num_requests

/-- `_calculate_off_hours_burning`. -/
def calculate_off_hours_burning (num_requests : Int) (pattern : BurnPattern)
    (is_malicious : Bool) (d : BurnDraws) : Int :=
  let off_hours_tendency := pattern.off_hours_tendency.getD (1 / 10)
  if is_malicious ∧ d.off_rand < off_hours_tendency then
    max 0 (pyInt ((num_requests : ℚ) * d.off_ratio))
  else
    0

/-- `_calculate_multi_campus_burning`: (burn_campuses, burned_from_other). -/
def calculate_multi_campus_burning (is_malicious : Bool) (d : BurnDraws) :
    Nat × Nat :=
  if is_malicious ∧ d.campus_rand < 1 / 5 then
    (choiceList [2, 3] d.campus_choice_r, 1)
  else
    (1, 0)

/-- Python `max(l)` for the non-empty positive lists produced here. -/
def listMax (l : List Nat) : Nat := l.foldl max 0

/-- `np.mean(l)`. -/
def listMeanQ (l : List Nat) : ℚ := (l.sum : ℚ) / (l.length : ℚ)

/-- `generate_burn_activity`; `none` models the `ValueError` escaping from
`_generate_classifications`. -/
def generate_burn_activity (patterns : String → BurnPattern)
    (employee : Employee) (is_malicious is_abroad : Bool) (d : BurnDraws) :
    Option BurnRecord :=
  if is_abroad ∧ ¬ is_malicious ∧ d.abroad_nonmal_rand < 99 / 100 then
    some emptyBurnActivity
  else if is_abroad ∧ is_malicious ∧ d.abroad_mal_rand < 9 / 10 then
    some emptyBurnActivity
  else
    let pattern := patterns employee.behavioral_group
    let base_likelihood :=
      if is_malicious then pattern.burn_likelihood * 3
      else pattern.burn_likelihood
    if d.likelihood_rand > base_likelihood then
      some emptyBurnActivity
    else
      let burn_params := pattern.burn_params
      let num_requests : Int :=
        if is_malicious then
          max 1 (pyInt ((d.requests_poisson : ℚ) * d.requests_unif))
        else
          max 1 (d.requests_poisson : Int)
      let volume_mb : ℚ := d.volume_lognorm
      let num_files : Int :=
        if is_malicious then
          max 1 (pyInt ((d.files_poisson : ℚ) * d.files_unif))
        else
          max 1 (d.files_poisson : Int)
      match generate_classifications employee num_requests.toNat burn_params
          is_malicious d with
      | none => none
      | some classifications =>
        let off_hours_requests :=
          calculate_off_hours_burning num_requests pattern is_malicious d
        let mc := calculate_multi_campus_burning is_malicious d
        some { num_burn_requests := num_requests
               max_request_classification := listMax classifications
               avg_request_classification := listMeanQ classifications
               num_burn_requests_off_hours := off_hours_requests
               total_burn_volume_mb := pyInt volume_mb
               total_files_burned := num_files
               burned_from_other := mc.2
               burn_campuses := mc.1 }

lemma drawClassList_isSome (cap : Nat) (f : Nat → Nat) (n : Nat) :
    (drawClassList cap f n).isSome ↔ (n = 0 ∨ 1 ≤ cap) := by
  induction n with
  | zero => simp [drawClassList]
  | succ n ih =>
    rw [drawClassList]
    cases hrest : drawClassList cap f n with
    | none =>
      have hn : ¬ (n = 0 ∨ 1 ≤ cap) := by
        rw [← ih, hrest]
        simp
      simp [hrest]
      omega
    | some rest =>
      have h1 : n = 0 ∨ 1 ≤ cap := ih.mp (by simp [hrest])
      by_cases hc : (1 : Nat) < cap + 1
      · simp [hrest, npRandint, hc]
        omega
      · simp [hrest, npRandint, hc]
        omega

lemma choiceList123_pos (r : Nat) : 1 ≤ choiceList [1, 2, 3] r := by
  have h3 : r % 3 = 0 ∨ r % 3 = 1 ∨ r % 3 = 2 := by omega
  rcases h3 with h | h | h <;> simp [choiceList, h]

/-- C9: the per-request classification draw of `_generate_classifications`
is total exactly when its computed cap is at least 1.  With classification
level 0 it raises (`none`): in a group without the high-classification flag
for a non-malicious employee, and also whenever the weighted increment
realizes as 0 in the high/malicious branch.  Under the precondition that
the employee's classification level is at least 1 the error branch is
unreachable. -/
theorem burn_classification_draw_totality (employee : Employee)
    (bp : BurnParams) (mal : Bool) (d : BurnDraws) (n : Nat) (hn : 1 ≤ n) :
    ((generate_classifications employee n bp mal d).isSome ↔
      1 ≤ burnMaxClassification employee bp mal d) ∧
    (employee.classification = 0 → bp.high_classification = false →
      mal = false →
      generate_classifications employee n bp mal d = none) ∧
    (employee.classification = 0 →
      choiceList [0, 1, 2] d.class_choice_r = 0 →
      (bp.high_classification = true ∨ mal = true) →
      generate_classifications employee n bp mal d = none) ∧
    (1 ≤ employee.classification →
      (generate_classifications employee n bp mal d).isSome) := by
  have hiff : (generate_classifications employee n bp mal d).isSome ↔
      1 ≤ burnMaxClassification employee bp mal d := by
    unfold generate_classifications
    rw [drawClassList_isSome]
    omega
  refine ⟨hiff, ?_, ?_, ?_⟩
  · intro h0 hh hm
    have hcap : burnMaxClassification employee bp mal d = 0 := by
      unfold burnMaxClassification
      rw [if_neg (by simp [hh, hm])]
      simp [h0]
    rw [← Option.not_isSome_iff_eq_none]
    simp only [hiff, hcap]
    omega
  · intro h0 hch hor
    have hcap : burnMaxClassification employee bp mal d = 0 := by
      unfold burnMaxClassification
      rw [if_pos (by rcases hor with h | h <;> simp [h])]
      simp [h0, hch]
    rw [← Option.not_isSome_iff_eq_none]
    simp only [hiff, hcap]
    omega
  · intro h1
    rw [hiff]
    unfold burnMaxClassification
    split
    · omega
    · have := choiceList123_pos d.class_choice_r
      omega

/-- Concrete inputs for the C9 witness. -/
def c9Emp : Employee := ⟨"E009", "B", "Israel", 1⟩

/-- Concrete burn parameters (non-high-classification group). -/
def c9Params : BurnParams := ⟨3, 7, 35, false⟩

/-- Concrete burn draws for the C9 witness. -/
def c9Draws : BurnDraws :=
  { abroad_nonmal_rand := 0
    abroad_mal_rand := 0
    likelihood_rand := 0
    requests_poisson := 3
    requests_unif := 2
    volume_lognorm := 5
    files_poisson := 10
    files_unif := 2
    class_choice_r := 0
    class_randint := fun _ => 0
    off_rand := 1
    off_ratio := 1 / 2
    campus_rand := 1
    campus_choice_r := 0 }

theorem burn_classification_draw_totality_witness :
    (generate_classifications c9Emp 2 c9Params false c9Draws).isSome = true :=
  (burn_classification_draw_totality c9Emp c9Params false c9Draws 2
    (by decide)).2.2.2 (by decide)

/-! ## Access activity generator (`access_activity_generator.py`) -/

/-- The behavioral-pattern fields the access generator reads;
`weekend_work` is optional (`pattern.get('weekend_work', 0.6)`). -/
structure AccessPattern where
  start_mean : ℚ
  start_std : ℚ
  end_mean : ℚ
  end_std : ℚ
  weekend_work : Option ℚ
deriving Repr, DecidableEq

/-- One emitted access sub-record. -/
structure AccessRecord where
  num_entries : Int
  num_exits : Int
  first_entry_time : Option String
  last_exit_time : Option String
  total_presence_minutes : Int
  entered_during_night_hours : Nat
  num_unique_campus : Nat
  early_entry_flag : Nat
  late_exit_flag : Nat
  entry_during_weekend : Nat
deriving Repr, DecidableEq

/-- Realized random draws of one `generate_access_activity` call. -/
structure AccessDraws where
  /-- `np.random.random()` for the abroad malicious 0.05 gate. -/
  abroad_mal_rand : ℚ
  /-- `np.random.random()` for the abroad non-malicious 0.001 gate. -/
  abroad_nonmal_rand : ℚ
  /-- `np.random.random()` for the 0.05 absence gate. -/
  absence_rand : ℚ
  /-- realized `np.random.normal(start_mean, start_std)` value. -/
  start_normal : ℚ
  /-- realized `np.random.normal(end_mean, end_std)` value. -/
  end_normal : ℚ
  /-- `np.random.random()` for the malicious 1% extreme-hours gate. -/
  extreme_mal_rand : ℚ
  /-- `np.random.random()` for the non-malicious 0.8% extreme-hours gate. -/
  extreme_nonmal_rand : ℚ
  /-- `np.random.random() < 0.5` side selector for extreme hours. -/
  extreme_side_rand : ℚ
  /-- realized `np.random.uniform(5, 7)` / `np.random.uniform(20, 23)`. -/
  extreme_unif : ℚ
  /-- `np.random.random()` against the security group's weekend_work. -/
  weekend_secE_rand : ℚ
  /-- `np.random.random()` for the malicious 30% weekend gate. -/
  weekend_mal_rand : ℚ
  /-- `np.random.random()` for the regular 5% weekend gate. -/
  weekend_reg_rand : ℚ
  /-- `np.random.random()` for the malicious 20% multi-entry gate. -/
  entries_gate_rand : ℚ
  /-- selector for `np.random.choice([2, 3, 4], p=[0.5, 0.3, 0.2])`. -/
  entries_mal_choice : Nat
  /-- selector for `np.random.choice([1, 2], p=[0.8, 0.2])`. -/
  entries_reg_choice : Nat
  /-- `np.random.random()` for the malicious 15% multi-campus gate. -/
  campus_rand : ℚ
  /-- selector for `np.random.choice([2, 3])`. -/
  campus_choice_r : Nat
deriving DecidableEq

/-- `_empty_access_activity`. -/
def emptyAccessActivity : AccessRecord :=
  { num_entries := 0
    num_exits := 0
    first_entry_time := none
    last_exit_time := none
    total_presence_minutes := 0
    entered_during_night_hours := 0
    num_unique_campus := 0
    early_entry_flag := 0
    late_exit_flag := 0
    entry_during_weekend := 0 }

/-- The `.hour` of `base_date + timedelta(hours=q)`. -/
def hourOfTime (q : ℚ) : Int := ⌊q⌋ % 24

/-- The `.minute` of `base_date + timedelta(hours=q)`. -/
def minuteOfTime (q : ℚ) : Int := ⌊q * 60⌋ % 60

/-- `strftime('%H:%M')` of `base_date + timedelta(hours=q)`. -/
def timeStringOf (q : ℚ) : String :=
  formatHHMM (hourOfTime q).toNat (minuteOfTime q).toNat

/-- `_get_work_hours` (Config fallbacks: MIN_WORK_HOUR 6, MAX_WORK_HOUR 22,
MIN_WORK_DURATION 4). -/
def get_work_hours (_patterns : String → AccessPattern) (_employee : Employee)
    (is_malicious : Bool) (d : AccessDraws) : ℚ × ℚ :=
  let start_hour := d.start_normal
  let end_hour := d.end_normal
  let start_hour := max 6 (min 12 start_hour)
  let end_hour := max (start_hour + 4) (min 22 end_hour)
  if is_malicious ∧ d.extreme_mal_rand < 1 / 100 then
    if d.extreme_side_rand < 1 / 2 then (d.extreme_unif, end_hour)
    else (start_hour, d.extreme_unif)
  else if ¬ is_malicious ∧ d.extreme_nonmal_rand < 8 / 1000 then
    if d.extreme_side_rand < 1 / 2 then (d.extreme_unif, end_hour)
    else (start_hour, d.extreme_unif)
  else
    (start_hour, end_hour)

/-- `_should_work_weekend` (`date.weekday()` is passed as `weekday`,
0 = Monday). -/
def should_work_weekend (patterns : String → AccessPattern)
    (employee : Employee) (weekday : Nat) (is_malicious : Bool)
    (d : AccessDraws) : Bool :=
  if weekday < 4 then true
  else if employee.behavioral_group = "E" then
    d.weekend_secE_rand <
      ((patterns employee.behavioral_group).weekend_work.getD (3 / 5))
  else if is_malicious ∧ d.weekend_mal_rand < 3 / 10 then true
  else d.weekend_reg_rand < 1 / 20

/-- `_generate_access_data`. -/
def generate_access_data (_employee : Employee) (weekday : Nat)
    (start_hour end_hour : ℚ) (is_malicious : Bool) (d : AccessDraws) :
    AccessRecord :=
  let num_entries : Int :=
    if is_malicious ∧ d.entries_gate_rand < 1 / 5 then
      (choiceList [2, 3, 4] d.entries_mal_choice : Int)
    else
      (choiceList [1, 2] d.entries_reg_choice : Int)
  let num_exits := num_entries
  let total_minutes : Int := pyInt ((end_hour - start_hour) * 60)
  let early_entry : Nat := if hourOfTime start_hour < 6 then 1 else 0
  let late_exit : Nat := if hourOfTime end_hour > 22 then 1 else 0
  let night_entry : Nat :=
    if hourOfTime start_hour ≤ 5 ∨ hourOfTime start_hour ≥ 22 then 1 else 0
  let weekend_entry : Nat := if weekday ≥ 4 then 1 else 0
  let num_unique_campus : Nat :=
    if is_malicious ∧ d.campus_rand < 3 / 20 then
      choiceList [2, 3] d.campus_choice_r
    else 1
  { num_entries := num_entries
    num_exits := num_exits
    first_entry_time := some (timeStringOf start_hour)
    last_exit_time := some (timeStringOf end_hour)
    total_presence_minutes := total_minutes
    entered_during_night_hours := night_entry
    num_unique_campus := num_unique_campus
    early_entry_flag := early_entry
    late_exit_flag := late_exit
    entry_during_weekend := weekend_entry }

/-- `generate_access_activity`. -/
def generate_access_activity (patterns : String → AccessPattern)
    (employee : Employee) (weekday : Nat) (is_malicious is_abroad : Bool)
    (d : AccessDraws) : AccessRecord :=
  if is_abroad ∧
      ¬ ((is_malicious ∧ d.abroad_mal_rand < 1 / 20) ∨
        (¬ is_malicious ∧ d.abroad_nonmal_rand < 1 / 1000)) then
    emptyAccessActivity
  else if d.absence_rand < 1 / 20 then
    emptyAccessActivity
  else
    let wh := get_work_hours patterns employee is_malicious d
    if ¬ should_work_weekend patterns employee weekday is_malicious d then
      emptyAccessActivity
    else
      generate_access_data employee weekday wh.1 wh.2 is_malicious d

/-- C10: every record returned by the access sampler has
`num_exits = num_entries`: the empty record sets both to 0 and every
non-empty record copies the sampled entry count into the exit count. -/
theorem access_exits_eq_entries (patterns : String → AccessPattern)
    (employee : Employee) (weekday : Nat) (mal abroad : Bool)
    (d : AccessDraws) :
    (generate_access_activity patterns employee weekday mal abroad d).num_exits =
      (generate_access_activity patterns employee weekday mal abroad d).num_entries := by
  unfold generate_access_activity
  split
  · rfl
  · split
    · rfl
    · simp only
      split
      · rfl
      · unfold generate_access_data
        simp only

/-! ## Noise injector (`date_noise_injector.py`) -/

/-- Constructor arguments of `DataNoiseInjector`. -/
structure NoiseConfig where
  burn_noise_rate : ℚ
  print_noise_rate : ℚ
  entry_time_noise_rate : ℚ
  use_gaussian : Bool
deriving Repr, DecidableEq

/-- The default ("extreme") configuration. -/
def defaultNoiseConfig : NoiseConfig := ⟨85 / 100, 80 / 100, 90 / 100, true⟩

/-- The row fields read or written by the noise injector. -/
structure NoiseRow where
  num_burn_requests : Int
  total_files_burned : Int
  total_burn_volume_mb : Int
  num_burn_requests_off_hours : Int
  avg_request_classification : ℚ
  max_request_classification : Int
  burn_campuses : Int
  burned_from_other : Int
  num_print_commands : Int
  total_printed_pages : Int
  num_print_commands_off_hours : Int
  num_printed_pages_off_hours : Int
  num_color_prints : Int
  num_bw_prints : Int
  ratio_color_prints : ℚ
  first_entry_time : Option String
  entered_during_night_hours : Int
  early_entry_flag : Int
  row_modified : Bool
  modification_details : String
deriving Repr, DecidableEq

/-- Realized random draws of one `inject_burn_noise` call. -/
structure BurnNoiseDraws where
  /-- `random.random()` against `burn_noise_rate`. -/
  gate_rand : ℚ
  /-- realized `np.random.normal(8, 5)`. -/
  normal_burns : ℚ
  /-- oracle for `random.randint(3, 20)`. -/
  int_burns : Nat
  /-- realized `np.random.normal(20, 15)`. -/
  normal_files : ℚ
  /-- oracle for `random.randint(5, 60)`. -/
  int_files : Nat
  /-- realized `np.random.normal(500, 300)`. -/
  normal_mb : ℚ
  /-- oracle for `random.randint(100, 2000)`. -/
  int_mb : Nat
  /-- `random.random()` for the 0.85 off-hours gate. -/
  off_gate_rand : ℚ
  /-- oracle for `random.randint(2, 8)`. -/
  off_add_r : Nat
  /-- realized `np.random.normal(0, 1.0)`. -/
  normal_avg : ℚ
  /-- realized `round(random.uniform(-1.5, 1.5), 2)`. -/
  unif_avg : ℚ
  /-- `random.random()` for the 0.40 max-classification gate. -/
  max_gate_rand : ℚ
  /-- oracle for `random.randint(1, 3)`. -/
  max_inc_r : Nat
  /-- `random.random()` for the 0.35 campus gate. -/
  campus_gate_rand : ℚ
  /-- oracle for `random.randint(1, 2)`. -/
  campus_inc_r : Nat
deriving Repr, DecidableEq

/-- Realized random draws of one `inject_print_noise` call. -/
structure PrintNoiseDraws where
  /-- `random.random()` against `print_noise_rate`. -/
  gate_rand : ℚ
  /-- realized `np.random.normal(0.5, 0.3)`. -/
  normal_factor : ℚ
  /-- realized `random.uniform(0.3, 0.8)`. -/
  unif_factor : ℚ
  /-- realized `random.uniform(0.5, 1.8)`. -/
  pages_unif : ℚ
  /-- realized `np.random.normal(0, 0.20)`. -/
  normal_color : ℚ
  /-- realized `random.uniform(-0.30, 0.30)`. -/
  unif_color : ℚ
  /-- `random.random()` for the 0.75 off-hours gate. -/
  off_gate_rand : ℚ
  /-- oracle for `random.randint(2, 6)`. -/
  off_add_r : Nat
deriving Repr, DecidableEq

/-- Realized random draws of one `inject_entry_time_noise` call. -/
structure EntryNoiseDraws where
  /-- `random.random()` against `entry_time_noise_rate`. -/
  gate_rand : ℚ
  /-- realized `np.random.normal(0, 45)`. -/
  normal_mins : ℚ
  /-- oracle for `random.randint(-90, 90)`. -/
  int_mins_r : Nat
deriving Repr, DecidableEq

/-- The off-hours block of `inject_burn_noise` (85% chance). -/
def burnOffHoursStep (row : NoiseRow) (changes : List String)
    (d : BurnNoiseDraws) : NoiseRow × List String :=
  if d.off_gate_rand < 85 / 100 then
    let additional_off_hours := pyRandint 2 8 d.off_add_r
    ({ row with num_burn_requests_off_hours := row.num_burn_requests_off_hours + additional_off_hours },
     changes ++ ["num_burn_requests_off_hours += " ++ toString additional_off_hours])
  else (row, changes)

/-- The max-classification block of `inject_burn_noise` (40% chance). -/
def burnMaxClassStep (row : NoiseRow) (changes : List String)
    (d : BurnNoiseDraws) : NoiseRow × List String :=
  if d.max_gate_rand < 2 / 5 ∧ row.max_request_classification < 4 then
    let increment := pyRandint 1 3 d.max_inc_r
    ({ row with max_request_classification := min 4 (row.max_request_classification + increment) },
     changes ++ ["max_request_classification +" ++ toString increment])
  else (row, changes)

/-- The campus block of `inject_burn_noise` (35% chance). -/
def burnCampusStep (row : NoiseRow) (changes : List String)
    (d : BurnNoiseDraws) : NoiseRow × List String :=
  if d.campus_gate_rand < 7 / 20 then
    let rc1 : NoiseRow × List String :=
      if row.burn_campuses < 5 then
        let old_campuses := row.burn_campuses
        let row := { row with burn_campuses := row.burn_campuses + pyRandint 1 2 d.campus_inc_r }
        (row, changes ++ ["burn_campuses: " ++ toString old_campuses ++
          " → " ++ toString row.burn_campuses])
      else (row, changes)
    let row := rc1.1
    let changes := rc1.2
    if row.burn_campuses > 1 then
      ({ row with burned_from_other := 1 },
       changes ++ ["burned_from_other set to 1"])
    else (row, changes)
  else (row, changes)

/-- `inject_burn_noise`: returns the updated row and change log. -/
def inject_burn_noise (cfg : NoiseConfig) (row : NoiseRow)
    (changes : List String) (d : BurnNoiseDraws) : NoiseRow × List String :=
  if d.gate_rand < cfg.burn_noise_rate then
    let delta_burns : Int :=
      if cfg.use_gaussian then max 1 (pyInt d.normal_burns)
      else pyRandint 3 20 d.int_burns
    let row := { row with num_burn_requests := row.num_burn_requests + delta_burns }
    let changes := changes ++ ["num_burn_requests += " ++ toString delta_burns]
    let delta_files : Int :=
      if cfg.use_gaussian then max 1 (pyInt d.normal_files)
      else pyRandint 5 60 d.int_files
    let row := { row with total_files_burned := row.total_files_burned + delta_files }
    let changes := changes ++ ["total_files_burned += " ++ toString delta_files]
    let delta_mb : Int :=
      if cfg.use_gaussian then max 100 (pyInt d.normal_mb)
      else pyRandint 100 2000 d.int_mb
    let row := { row with total_burn_volume_mb := row.total_burn_volume_mb + delta_mb }
    let changes := changes ++ ["total_burn_volume_mb += " ++ toString delta_mb]
    let rc : NoiseRow × List String := burnOffHoursStep row changes d
    let row := rc.1
    let changes := rc.2
    let delta_avg : ℚ := if cfg.use_gaussian then d.normal_avg else d.unif_avg
    let row := { row with avg_request_classification := max 0 (min 4 (row.avg_request_classification + delta_avg)) }
    let changes := changes ++ ["avg_request_classification adjusted by " ++ toString delta_avg]
    let rc : NoiseRow × List String := burnMaxClassStep row changes d
    let row := rc.1
    let changes := rc.2
    burnCampusStep row changes d
  else (row, changes)

/-- The off-hours block of `inject_print_noise` (75% chance). -/
def printOffHoursStep (row : NoiseRow) (changes : List String)
    (d : PrintNoiseDraws) : NoiseRow × List String :=
  if d.off_gate_rand < 3 / 4 then
    let additional_off_hours := pyRandint 2 6 d.off_add_r
    ({ row with num_print_commands_off_hours := row.num_print_commands_off_hours + additional_off_hours },
     changes ++ ["num_print_commands_off_hours += " ++ toString additional_off_hours])
  else (row, changes)

/-- `inject_print_noise`: only applies to rows with nonzero print commands. -/
def inject_print_noise (cfg : NoiseConfig) (row : NoiseRow)
    (changes : List String) (d : PrintNoiseDraws) : NoiseRow × List String :=
  if row.num_print_commands > 0 ∧ d.gate_rand < cfg.print_noise_rate then
    let noise_factor : ℚ :=
      if cfg.use_gaussian then max (1 / 10) d.normal_factor else d.unif_factor
    let delta_prints : Int :=
      max 1 (pyInt ((row.num_print_commands : ℚ) * noise_factor))
    let row := { row with num_print_commands := row.num_print_commands + delta_prints }
    let changes := changes ++ ["num_print_commands += " ++ toString delta_prints]
    let old_prints : Int := max (row.num_print_commands - delta_prints) 1
    let pages_per_print : ℚ := (row.total_printed_pages : ℚ) / (old_prints : ℚ)
    let additional_pages : Int :=
      pyInt ((delta_prints : ℚ) * pages_per_print * d.pages_unif)
    let row := { row with total_printed_pages := row.total_printed_pages + additional_pages }
    let changes := changes ++ ["total_printed_pages += " ++ toString additional_pages]
    let color_delta : ℚ :=
      if cfg.use_gaussian then d.normal_color else d.unif_color
    let row := { row with ratio_color_prints := min 1 (max 0 (row.ratio_color_prints + color_delta)) }
    let changes := changes ++ ["ratio_color_prints adjusted by " ++ toString color_delta]
    printOffHoursStep row changes d
  else (row, changes)

/-- `inject_entry_time_noise`: returns the updated row, change log, and the
logger warnings emitted by the `except` handler. -/
def inject_entry_time_noise (cfg : NoiseConfig) (row : NoiseRow)
    (changes : List String) (d : EntryNoiseDraws) :
    NoiseRow × List String × List String :=
  match row.first_entry_time with
  | none => (row, changes, [])
  | some s =>
    if d.gate_rand < cfg.entry_time_noise_rate then
      match parseHHMM s with
      | none => (row, changes, ["Failed to parse entry time: " ++ s])
      | some hm =>
        let delta_minutes : Int :=
          if cfg.use_gaussian then pyInt d.normal_mins
          else pyRandint (-90) 90 d.int_mins_r
        let total : Int :=
          ((hm.1 : Int) * 60 + (hm.2 : Int) + delta_minutes) % (24 * 60)
        let new_hour : Int := total / 60
        let new_min : Int := total % 60
        let row := { row with first_entry_time := some (formatHHMM new_hour.toNat new_min.toNat) }
        let changes := changes ++
          ["first_entry_time shifted by " ++ toString delta_minutes ++ " mins"]
        let hour := new_hour
        let row := { row with
                     entered_during_night_hours := if hour < 6 ∨ hour ≥ 22 then 1 else 0
                     early_entry_flag := if hour < 7 then 1 else 0 }
        let changes := changes ++ ["updated night and early entry flags"]
        (row, changes, [])
    else (row, changes, [])

/-- Realized random draws of one `inject_full_noise` call. -/
structure FullNoiseDraws where
  burn : BurnNoiseDraws
  print_d : PrintNoiseDraws
  entry : EntryNoiseDraws
deriving Repr, DecidableEq

/-- The bookkeeping tail of `inject_full_noise`: set `row_modified` and the
semicolon-joined `modification_details` from the collected change list. -/
def noiseBookkeeping (row : NoiseRow) (changes : List String) : NoiseRow :=
  if changes = [] then
    { row with row_modified := false, modification_details := "" }
  else
    { row with row_modified := true, modification_details := joinSemicolon changes }

/-- `inject_full_noise`: the three injectors in order, then the bookkeeping
of `row_modified` and `modification_details`.  Returns the row, the change
list, and the warnings. -/
def inject_full_noise (cfg : NoiseConfig) (row : NoiseRow)
    (d : FullNoiseDraws) : NoiseRow × List String × List String :=
  let bp := inject_burn_noise cfg row [] d.burn
  let pp := inject_print_noise cfg bp.1 bp.2 d.print_d
  let ep := inject_entry_time_noise cfg pp.1 pp.2 d.entry
  (noiseBookkeeping ep.1 ep.2.1, ep.2.1, ep.2.2)

/-- A concrete sampler-consistent row for the noise counterexamples: one
print command, two printed pages split 1 color / 1 black-white. -/
def c4Row : NoiseRow :=
  { num_burn_requests := 0
    total_files_burned := 0
    total_burn_volume_mb := 0
    num_burn_requests_off_hours := 0
    avg_request_classification := 0
    max_request_classification := 0
    burn_campuses := 0
    burned_from_other := 0
    num_print_commands := 1
    total_printed_pages := 2
    num_print_commands_off_hours := 0
    num_printed_pages_off_hours := 0
    num_color_prints := 1
    num_bw_prints := 1
    ratio_color_prints := 1 / 2
    first_entry_time := none
    entered_during_night_hours := 0
    early_entry_flag := 0
    row_modified := false
    modification_details := "" }

/-- Concrete full-noise draws: the burn gate stays closed, the print gate
fires and doubles the page count, the entry-time step is skipped (no
stored time). -/
def c4Draws : FullNoiseDraws :=
  { burn :=
      { gate_rand := 9 / 10
        normal_burns := 1
        int_burns := 0
        normal_files := 1
        int_files := 0
        normal_mb := 100
        int_mb := 0
        off_gate_rand := 9 / 10
        off_add_r := 0
        normal_avg := 0
        unif_avg := 0
        max_gate_rand := 9 / 10
        max_inc_r := 0
        campus_gate_rand := 9 / 10
        campus_inc_r := 0 }
    print_d :=
      { gate_rand := 0
        normal_factor := 1
        unif_factor := 1 / 2
        pages_unif := 1
        normal_color := 0
        unif_color := 0
        off_gate_rand := 9 / 10
        off_add_r := 0 }
    entry :=
      { gate_rand := 0
        normal_mins := 0
        int_mins_r := 0 } }

/-- C4 counterexample: the noise pass adds printed pages without adjusting
the color/black-white split, so `num_color_prints + num_bw_prints =
total_printed_pages` holds before the pass and fails after it. -/
theorem print_color_split_noise_counterexample :
    c4Row.num_color_prints + c4Row.num_bw_prints = c4Row.total_printed_pages ∧
    (inject_full_noise defaultNoiseConfig c4Row c4Draws).1.num_color_prints +
        (inject_full_noise defaultNoiseConfig c4Row c4Draws).1.num_bw_prints ≠
      (inject_full_noise defaultNoiseConfig c4Row c4Draws).1.total_printed_pages := by
  constructor
  · norm_num [c4Row]
  · norm_num [inject_full_noise, inject_burn_noise, inject_print_noise,
      inject_entry_time_noise, noiseBookkeeping, burnOffHoursStep, burnMaxClassStep,
      burnCampusStep, printOffHoursStep, defaultNoiseConfig, c4Row, c4Draws,
      pyInt]
    split
    · next h => exact absurd h (by simp)
    · next h => norm_num

/-- Sampler-feasible burn row for the C3 counterexample: 10 burn requests,
7 of them off-hours (`int(10 * u)` with `u ∈ [0.3, 0.8)` can realize 7). -/
def c3Row : NoiseRow :=
  { num_burn_requests := 10
    total_files_burned := 12
    total_burn_volume_mb := 100
    num_burn_requests_off_hours := 7
    avg_request_classification := 2
    max_request_classification := 3
    burn_campuses := 1
    burned_from_other := 0
    num_print_commands := 0
    total_printed_pages := 0
    num_print_commands_off_hours := 0
    num_printed_pages_off_hours := 0
    num_color_prints := 0
    num_bw_prints := 0
    ratio_color_prints := 0
    first_entry_time := none
    entered_during_night_hours := 0
    early_entry_flag := 0
    row_modified := false
    modification_details := "" }

/-- Draws for the C3 counterexample: the burn gate fires with the minimal
Gaussian request delta (1) while the off-hours bump realizes its maximum
(`randint(2, 8) = 8`). -/
def c3Draws : FullNoiseDraws :=
  { burn :=
      { gate_rand := 0
        normal_burns := 1
        int_burns := 0
        normal_files := 5
        int_files := 0
        normal_mb := 100
        int_mb := 0
        off_gate_rand := 0
        off_add_r := 6
        normal_avg := 0
        unif_avg := 0
        max_gate_rand := 9 / 10
        max_inc_r := 0
        campus_gate_rand := 9 / 10
        campus_inc_r := 0 }
    print_d :=
      { gate_rand := 9 / 10
        normal_factor := 1
        unif_factor := 1 / 2
        pages_unif := 1
        normal_color := 0
        unif_color := 0
        off_gate_rand := 9 / 10
        off_add_r := 0 }
    entry :=
      { gate_rand := 0
        normal_mins := 0
        int_mins_r := 0 } }

/-- Sampler-feasible print row for the second half of the C3
counterexample: 2 print commands, 1 off-hours. -/
def c3RowB : NoiseRow :=
  { num_burn_requests := 0
    total_files_burned := 0
    total_burn_volume_mb := 0
    num_burn_requests_off_hours := 0
    avg_request_classification := 0
    max_request_classification := 0
    burn_campuses := 0
    burned_from_other := 0
    num_print_commands := 2
    total_printed_pages := 4
    num_print_commands_off_hours := 1
    num_printed_pages_off_hours := 1
    num_color_prints := 2
    num_bw_prints := 2
    ratio_color_prints := 1 / 2
    first_entry_time := none
    entered_during_night_hours := 0
    early_entry_flag := 0
    row_modified := false
    modification_details := "" }

/-- Draws for the second half of the C3 counterexample: the print gate
fires with the minimal command delta (1) while the off-hours bump realizes
its maximum (`randint(2, 6) = 6`). -/
def c3DrawsB : FullNoiseDraws :=
  { burn :=
      { gate_rand := 9 / 10
        normal_burns := 1
        int_burns := 0
        normal_files := 1
        int_files := 0
        normal_mb := 100
        int_mb := 0
        off_gate_rand := 9 / 10
        off_add_r := 0
        normal_avg := 0
        unif_avg := 0
        max_gate_rand := 9 / 10
        max_inc_r := 0
        campus_gate_rand := 9 / 10
        campus_inc_r := 0 }
    print_d :=
      { gate_rand := 0
        normal_factor := 1 / 4
        unif_factor := 1 / 2
        pages_unif := 1
        normal_color := 0
        unif_color := 0
        off_gate_rand := 0
        off_add_r := 4 }
    entry :=
      { gate_rand := 0
        normal_mins := 0
        int_mins_r := 0 } }

/-- C3 counterexample: the full noise pass can push an off-hours count above
its total.  On `c3Row` the off-hours burn requests end at 15 against 11
total requests; on `c3RowB` the off-hours print commands end at 7 against 3
total commands.  Both rows satisfy the invariant before the pass. -/
theorem off_hours_noise_counterexample :
    c3Row.num_burn_requests_off_hours ≤ c3Row.num_burn_requests ∧
    (inject_full_noise defaultNoiseConfig c3Row c3Draws).1.num_burn_requests <
      (inject_full_noise defaultNoiseConfig c3Row c3Draws).1.num_burn_requests_off_hours ∧
    c3RowB.num_print_commands_off_hours ≤ c3RowB.num_print_commands ∧
    (inject_full_noise defaultNoiseConfig c3RowB c3DrawsB).1.num_print_commands <
      (inject_full_noise defaultNoiseConfig c3RowB c3DrawsB).1.num_print_commands_off_hours := by
  refine ⟨by norm_num [c3Row], ?_, by norm_num [c3RowB], ?_⟩
  · norm_num [inject_full_noise, inject_burn_noise, inject_print_noise,
      inject_entry_time_noise, noiseBookkeeping, burnOffHoursStep, burnMaxClassStep,
      burnCampusStep, printOffHoursStep, defaultNoiseConfig, c3Row, c3Draws,
      pyInt, pyRandint]
    split
    · next h => exact absurd h (by simp)
    · next h => norm_num
  · norm_num [inject_full_noise, inject_burn_noise, inject_print_noise,
      inject_entry_time_noise, noiseBookkeeping, burnOffHoursStep, burnMaxClassStep,
      burnCampusStep, printOffHoursStep, defaultNoiseConfig, c3RowB, c3DrawsB,
      pyInt, pyRandint]
    split
    · next h => exact absurd h (by simp)
    · next h => norm_num

lemma burnOffHoursStep_num_print_commands (row : NoiseRow)
    (changes : List String) (d : BurnNoiseDraws) :
    (burnOffHoursStep row changes d).1.num_print_commands =
      row.num_print_commands := by
  unfold burnOffHoursStep
  split <;> simp

lemma burnOffHoursStep_total_printed_pages (row : NoiseRow)
    (changes : List String) (d : BurnNoiseDraws) :
    (burnOffHoursStep row changes d).1.total_printed_pages =
      row.total_printed_pages := by
  unfold burnOffHoursStep
  split <;> simp

lemma burnOffHoursStep_pages_off_hours (row : NoiseRow)
    (changes : List String) (d : BurnNoiseDraws) :
    (burnOffHoursStep row changes d).1.num_printed_pages_off_hours =
      row.num_printed_pages_off_hours := by
  unfold burnOffHoursStep
  split <;> simp

lemma burnOffHoursStep_first_entry_time (row : NoiseRow)
    (changes : List String) (d : BurnNoiseDraws) :
    (burnOffHoursStep row changes d).1.first_entry_time =
      row.first_entry_time := by
  unfold burnOffHoursStep
  split <;> simp

lemma burnMaxClassStep_num_print_commands (row : NoiseRow)
    (changes : List String) (d : BurnNoiseDraws) :
    (burnMaxClassStep row changes d).1.num_print_commands =
      row.num_print_commands := by
  unfold burnMaxClassStep
  split <;> simp

lemma burnMaxClassStep_total_printed_pages (row : NoiseRow)
    (changes : List String) (d : BurnNoiseDraws) :
    (burnMaxClassStep row changes d).1.total_printed_pages =
      row.total_printed_pages := by
  unfold burnMaxClassStep
  split <;> simp

lemma burnMaxClassStep_pages_off_hours (row : NoiseRow)
    (changes : List String) (d : BurnNoiseDraws) :
    (burnMaxClassStep row changes d).1.num_printed_pages_off_hours =
      row.num_printed_pages_off_hours := by
  unfold burnMaxClassStep
  split <;> simp

lemma burnMaxClassStep_first_entry_time (row : NoiseRow)
    (changes : List String) (d : BurnNoiseDraws) :
    (burnMaxClassStep row changes d).1.first_entry_time =
      row.first_entry_time := by
  unfold burnMaxClassStep
  split <;> simp

lemma burnCampusStep_num_print_commands (row : NoiseRow)
    (changes : List String) (d : BurnNoiseDraws) :
    (burnCampusStep row changes d).1.num_print_commands =
      row.num_print_commands := by
  unfold burnCampusStep
  split
  · split <;> simp [apply_ite]
  · simp

lemma burnCampusStep_total_printed_pages (row : NoiseRow)
    (changes : List String) (d : BurnNoiseDraws) :
    (burnCampusStep row changes d).1.total_printed_pages =
      row.total_printed_pages := by
  unfold burnCampusStep
  split
  · split <;> simp [apply_ite]
  · simp

lemma burnCampusStep_pages_off_hours (row : NoiseRow)
    (changes : List String) (d : BurnNoiseDraws) :
    (burnCampusStep row changes d).1.num_printed_pages_off_hours =
      row.num_printed_pages_off_hours := by
  unfold burnCampusStep
  split
  · split <;> simp [apply_ite]
  · simp

lemma burnCampusStep_first_entry_time (row : NoiseRow)
    (changes : List String) (d : BurnNoiseDraws) :
    (burnCampusStep row changes d).1.first_entry_time =
      row.first_entry_time := by
  unfold burnCampusStep
  split
  · split <;> simp [apply_ite]
  · simp

lemma inject_burn_noise_num_print_commands (cfg : NoiseConfig)
    (row : NoiseRow) (changes : List String) (d : BurnNoiseDraws) :
    (inject_burn_noise cfg row changes d).1.num_print_commands =
      row.num_print_commands := by
  unfold inject_burn_noise
  split
  · simp only [burnCampusStep_num_print_commands,
      burnMaxClassStep_num_print_commands, burnOffHoursStep_num_print_commands]
  · simp

lemma inject_burn_noise_total_printed_pages (cfg : NoiseConfig)
    (row : NoiseRow) (changes : List String) (d : BurnNoiseDraws) :
    (inject_burn_noise cfg row changes d).1.total_printed_pages =
      row.total_printed_pages := by
  unfold inject_burn_noise
  split
  · simp only [burnCampusStep_total_printed_pages,
      burnMaxClassStep_total_printed_pages, burnOffHoursStep_total_printed_pages]
  · simp

lemma inject_burn_noise_pages_off_hours (cfg : NoiseConfig)
    (row : NoiseRow) (changes : List String) (d : BurnNoiseDraws) :
    (inject_burn_noise cfg row changes d).1.num_printed_pages_off_hours =
      row.num_printed_pages_off_hours := by
  unfold inject_burn_noise
  split
  · simp only [burnCampusStep_pages_off_hours,
      burnMaxClassStep_pages_off_hours, burnOffHoursStep_pages_off_hours]
  · simp

lemma inject_burn_noise_first_entry_time (cfg : NoiseConfig)
    (row : NoiseRow) (changes : List String) (d : BurnNoiseDraws) :
    (inject_burn_noise cfg row changes d).1.first_entry_time =
      row.first_entry_time := by
  unfold inject_burn_noise
  split
  · simp only [burnCampusStep_first_entry_time,
      burnMaxClassStep_first_entry_time, burnOffHoursStep_first_entry_time]
  · simp

lemma printOffHoursStep_pages_off_hours (row : NoiseRow)
    (changes : List String) (d : PrintNoiseDraws) :
    (printOffHoursStep row changes d).1.num_printed_pages_off_hours =
      row.num_printed_pages_off_hours := by
  unfold printOffHoursStep
  split <;> simp

lemma printOffHoursStep_total_printed_pages (row : NoiseRow)
    (changes : List String) (d : PrintNoiseDraws) :
    (printOffHoursStep row changes d).1.total_printed_pages =
      row.total_printed_pages := by
  unfold printOffHoursStep
  split <;> simp

lemma printOffHoursStep_first_entry_time (row : NoiseRow)
    (changes : List String) (d : PrintNoiseDraws) :
    (printOffHoursStep row changes d).1.first_entry_time =
      row.first_entry_time := by
  unfold printOffHoursStep
  split <;> simp

lemma inject_print_noise_pages_off_hours (cfg : NoiseConfig)
    (row : NoiseRow) (changes : List String) (d : PrintNoiseDraws) :
    (inject_print_noise cfg row changes d).1.num_printed_pages_off_hours =
      row.num_printed_pages_off_hours := by
  unfold inject_print_noise
  split
  · simp only [printOffHoursStep_pages_off_hours]
  · simp

lemma inject_print_noise_first_entry_time (cfg : NoiseConfig)
    (row : NoiseRow) (changes : List String) (d : PrintNoiseDraws) :
    (inject_print_noise cfg row changes d).1.first_entry_time =
      row.first_entry_time := by
  unfold inject_print_noise
  split
  · simp only [printOffHoursStep_first_entry_time]
  · simp

lemma inject_print_noise_total_pages_ge (cfg : NoiseConfig) (row : NoiseRow)
    (changes : List String) (d : PrintNoiseDraws)
    (h0 : 0 ≤ row.total_printed_pages) (hu : 0 ≤ d.pages_unif) :
    row.total_printed_pages ≤
      (inject_print_noise cfg row changes d).1.total_printed_pages := by
  unfold inject_print_noise
  split
  · rw [printOffHoursStep_total_printed_pages]
    simp only
    refine le_add_of_nonneg_right (pyInt_nonneg ?_)
    refine mul_nonneg (mul_nonneg ?_ ?_) hu
    · exact_mod_cast le_trans zero_le_one (le_max_left (1 : Int) _)
    · refine div_nonneg (by exact_mod_cast h0) ?_
      exact_mod_cast le_trans zero_le_one (le_max_right _ (1 : Int))
  · simp

lemma inject_entry_time_noise_total_printed_pages (cfg : NoiseConfig)
    (row : NoiseRow) (changes : List String) (d : EntryNoiseDraws) :
    (inject_entry_time_noise cfg row changes d).1.total_printed_pages =
      row.total_printed_pages := by
  unfold inject_entry_time_noise
  repeat' split
  all_goals simp

lemma inject_entry_time_noise_pages_off_hours (cfg : NoiseConfig)
    (row : NoiseRow) (changes : List String) (d : EntryNoiseDraws) :
    (inject_entry_time_noise cfg row changes d).1.num_printed_pages_off_hours =
      row.num_printed_pages_off_hours := by
  unfold inject_entry_time_noise
  repeat' split
  all_goals simp

lemma string_ne_empty_append (a b : String) (ha : a ≠ "") : a ++ b ≠ "" := by
  intro h
  apply ha
  have hlen := congrArg String.length h
  rw [String.length_append, String.length_empty] at hlen
  have ha0 : a.length = 0 := by omega
  cases a with
  | mk data =>
    cases data with
    | nil => rfl
    | cons c cs => simp [String.length] at ha0

lemma joinSemicolon_ne_empty (l : List String) (hne : l ≠ [])
    (h : ∀ s ∈ l, s ≠ "") : joinSemicolon l ≠ "" := by
  match l with
  | [s] => simpa [joinSemicolon] using h s (by simp)
  | s :: t :: r =>
    show s ++ "; " ++ joinSemicolon (t :: r) ≠ ""
    exact string_ne_empty_append _ _
      (string_ne_empty_append s "; " (h s (by simp)))

lemma allNE_append_single {l : List String} {x : String}
    (h : ∀ s ∈ l, s ≠ "") (hx : x ≠ "") : ∀ s ∈ l ++ [x], s ≠ "" := by
  intro s hs
  rcases List.mem_append.mp hs with hm | hm
  · exact h s hm
  · rw [List.mem_singleton.mp hm]; exact hx

lemma burnOffHoursStep_changes_ne (row : NoiseRow) (changes : List String)
    (d : BurnNoiseDraws) (h : ∀ s ∈ changes, s ≠ "") :
    ∀ s ∈ (burnOffHoursStep row changes d).2, s ≠ "" := by
  unfold burnOffHoursStep
  split
  · exact allNE_append_single h (string_ne_empty_append _ _ (by decide))
  · exact h

lemma burnMaxClassStep_changes_ne (row : NoiseRow) (changes : List String)
    (d : BurnNoiseDraws) (h : ∀ s ∈ changes, s ≠ "") :
    ∀ s ∈ (burnMaxClassStep row changes d).2, s ≠ "" := by
  unfold burnMaxClassStep
  split
  · exact allNE_append_single h (string_ne_empty_append _ _ (by decide))
  · exact h

lemma burnCampusStep_changes_ne (row : NoiseRow) (changes : List String)
    (d : BurnNoiseDraws) (h : ∀ s ∈ changes, s ≠ "") :
    ∀ s ∈ (burnCampusStep row changes d).2, s ≠ "" := by
  unfold burnCampusStep
  split
  · split
    · simp only
      split
      · refine allNE_append_single ?_ (by decide)
        exact allNE_append_single h
          (string_ne_empty_append _ _ (string_ne_empty_append _ _
            (string_ne_empty_append _ _ (by decide))))
      · exact allNE_append_single h
          (string_ne_empty_append _ _ (string_ne_empty_append _ _
            (string_ne_empty_append _ _ (by decide))))
    · simp only
      split
      · exact allNE_append_single h (by decide)
      · exact h
  · exact h

lemma inject_burn_noise_changes_ne (cfg : NoiseConfig) (row : NoiseRow)
    (changes : List String) (d : BurnNoiseDraws)
    (h : ∀ s ∈ changes, s ≠ "") :
    ∀ s ∈ (inject_burn_noise cfg row changes d).2, s ≠ "" := by
  unfold inject_burn_noise
  split
  · refine burnCampusStep_changes_ne _ _ _
      (burnMaxClassStep_changes_ne _ _ _
        (allNE_append_single
          (burnOffHoursStep_changes_ne _ _ _
            (allNE_append_single
              (allNE_append_single
                (allNE_append_single h
                  (string_ne_empty_append _ _ (by decide)))
                (string_ne_empty_append _ _ (by decide)))
              (string_ne_empty_append _ _ (by decide))))
          (string_ne_empty_append _ _ (by decide))))
  · exact h

lemma printOffHoursStep_changes_ne (row : NoiseRow) (changes : List String)
    (d : PrintNoiseDraws) (h : ∀ s ∈ changes, s ≠ "") :
    ∀ s ∈ (printOffHoursStep row changes d).2, s ≠ "" := by
  unfold printOffHoursStep
  split
  · exact allNE_append_single h (string_ne_empty_append _ _ (by decide))
  · exact h

lemma inject_print_noise_changes_ne (cfg : NoiseConfig) (row : NoiseRow)
    (changes : List String) (d : PrintNoiseDraws)
    (h : ∀ s ∈ changes, s ≠ "") :
    ∀ s ∈ (inject_print_noise cfg row changes d).2, s ≠ "" := by
  unfold inject_print_noise
  split
  · refine printOffHoursStep_changes_ne _ _ _
      (allNE_append_single
        (allNE_append_single
          (allNE_append_single h
            (string_ne_empty_append _ _ (by decide)))
          (string_ne_empty_append _ _ (by decide)))
        (string_ne_empty_append _ _ (by decide)))
  · exact h

lemma inject_entry_time_noise_changes_ne (cfg : NoiseConfig) (row : NoiseRow)
    (changes : List String) (d : EntryNoiseDraws)
    (h : ∀ s ∈ changes, s ≠ "") :
    ∀ s ∈ (inject_entry_time_noise cfg row changes d).2.1, s ≠ "" := by
  unfold inject_entry_time_noise
  split
  · exact h
  · split
    · split
      · exact h
      · simp only
        exact allNE_append_single
          (allNE_append_single h
            (string_ne_empty_append _ _ (string_ne_empty_append _ _ (by decide))))
          (by decide)
    · exact h

/-- C5: noise-injection bookkeeping.  If the full pass applied one or more
perturbations (non-empty change list), the row's modified flag is set and
its semicolon-joined log is non-empty; if none of the three field-group
gates fired, the flag is unset and the log is the empty string. -/
theorem noise_bookkeeping_consistency (cfg : NoiseConfig) (row : NoiseRow)
    (d : FullNoiseDraws) :
    ((inject_full_noise cfg row d).2.1 ≠ [] →
      (inject_full_noise cfg row d).1.row_modified = true ∧
      (inject_full_noise cfg row d).1.modification_details ≠ "") ∧
    (¬ (d.burn.gate_rand < cfg.burn_noise_rate) →
      ¬ (row.num_print_commands > 0 ∧ d.print_d.gate_rand < cfg.print_noise_rate) →
      ¬ (row.first_entry_time ≠ none ∧ d.entry.gate_rand < cfg.entry_time_noise_rate) →
      (inject_full_noise cfg row d).1.row_modified = false ∧
      (inject_full_noise cfg row d).1.modification_details = "") := by
  constructor
  · intro hch
    have hsnd : (inject_full_noise cfg row d).2.1 =
        (inject_entry_time_noise cfg
          (inject_print_noise cfg (inject_burn_noise cfg row [] d.burn).1
            (inject_burn_noise cfg row [] d.burn).2 d.print_d).1
          (inject_print_noise cfg (inject_burn_noise cfg row [] d.burn).1
            (inject_burn_noise cfg row [] d.burn).2 d.print_d).2 d.entry).2.1 := rfl
    have hfst : (inject_full_noise cfg row d).1 =
        noiseBookkeeping
          (inject_entry_time_noise cfg
            (inject_print_noise cfg (inject_burn_noise cfg row [] d.burn).1
              (inject_burn_noise cfg row [] d.burn).2 d.print_d).1
            (inject_print_noise cfg (inject_burn_noise cfg row [] d.burn).1
              (inject_burn_noise cfg row [] d.burn).2 d.print_d).2 d.entry).1
          (inject_entry_time_noise cfg
            (inject_print_noise cfg (inject_burn_noise cfg row [] d.burn).1
              (inject_burn_noise cfg row [] d.burn).2 d.print_d).1
            (inject_print_noise cfg (inject_burn_noise cfg row [] d.burn).1
              (inject_burn_noise cfg row [] d.burn).2 d.print_d).2 d.entry).2.1 := rfl
    rw [hsnd] at hch
    rw [hfst]
    unfold noiseBookkeeping
    rw [if_neg hch]
    refine ⟨rfl, joinSemicolon_ne_empty _ hch ?_⟩
    exact inject_entry_time_noise_changes_ne _ _ _ _
      (inject_print_noise_changes_ne _ _ _ _
        (inject_burn_noise_changes_ne _ _ _ _ (by simp)))
  · intro hb hp he
    have hburn : inject_burn_noise cfg row [] d.burn = (row, []) := by
      unfold inject_burn_noise
      rw [if_neg hb]
    have hprint : inject_print_noise cfg row [] d.print_d = (row, []) := by
      unfold inject_print_noise
      rw [if_neg hp]
    have hentry : inject_entry_time_noise cfg row [] d.entry = (row, [], []) := by
      unfold inject_entry_time_noise
      cases hfe : row.first_entry_time with
      | none => rfl
      | some s =>
        have hgate : ¬ d.entry.gate_rand < cfg.entry_time_noise_rate := by
          intro hg
          exact he ⟨by rw [hfe]; simp, hg⟩
        simp [hgate]
    unfold inject_full_noise
    simp only [hburn, hprint, hentry, noiseBookkeeping]
    simp

theorem noise_bookkeeping_consistency_witness :
    (inject_full_noise defaultNoiseConfig c4Row c4Draws).1.row_modified = true ∧
    (inject_full_noise defaultNoiseConfig c4Row c4Draws).1.modification_details ≠ "" :=
  (noise_bookkeeping_consistency defaultNoiseConfig c4Row c4Draws).1 (by
    norm_num [inject_full_noise, inject_burn_noise, inject_print_noise,
      inject_entry_time_noise, noiseBookkeeping, burnOffHoursStep,
      burnMaxClassStep, burnCampusStep, printOffHoursStep, defaultNoiseConfig,
      c4Row, c4Draws, pyInt]
    simp)

/-- C6: when the stored first-entry time does not parse, the entry-time step
changes no field of the row, appends no change, and records one warning (no
exception propagates: the embedded step is a total function); the full pass
then consists of the burn and print perturbations alone, bookkept as usual,
with that warning. -/
theorem entry_time_parse_failure (cfg : NoiseConfig) (row : NoiseRow)
    (d : FullNoiseDraws) (s : String)
    (hs : row.first_entry_time = some s)
    (hparse : parseHHMM s = none)
    (hgate : d.entry.gate_rand < cfg.entry_time_noise_rate) :
    (∀ (r : NoiseRow) (changes : List String), r.first_entry_time = some s →
      inject_entry_time_noise cfg r changes d.entry =
        (r, changes, ["Failed to parse entry time: " ++ s])) ∧
    inject_full_noise cfg row d =
      (noiseBookkeeping
        (inject_print_noise cfg (inject_burn_noise cfg row [] d.burn).1
          (inject_burn_noise cfg row [] d.burn).2 d.print_d).1
        (inject_print_noise cfg (inject_burn_noise cfg row [] d.burn).1
          (inject_burn_noise cfg row [] d.burn).2 d.print_d).2,
       (inject_print_noise cfg (inject_burn_noise cfg row [] d.burn).1
          (inject_burn_noise cfg row [] d.burn).2 d.print_d).2,
       ["Failed to parse entry time: " ++ s]) := by
  have hstep : ∀ (r : NoiseRow) (changes : List String),
      r.first_entry_time = some s →
      inject_entry_time_noise cfg r changes d.entry =
        (r, changes, ["Failed to parse entry time: " ++ s]) := by
    intro r changes hr
    unfold inject_entry_time_noise
    simp [hr, hgate, hparse]
  refine ⟨hstep, ?_⟩
  have hfe : (inject_print_noise cfg (inject_burn_noise cfg row [] d.burn).1
      (inject_burn_noise cfg row [] d.burn).2 d.print_d).1.first_entry_time =
      some s := by
    rw [inject_print_noise_first_entry_time, inject_burn_noise_first_entry_time]
    exact hs
  unfold inject_full_noise
  simp only [hstep _ _ hfe]

/-- A row holding an unparseable first-entry time. -/
def c6Row : NoiseRow := { c4Row with first_entry_time := some "bad" }

theorem entry_time_parse_failure_witness :
    c6Row.first_entry_time = some "bad" ∧
    parseHHMM "bad" = none ∧
    inject_entry_time_noise defaultNoiseConfig c6Row [] c4Draws.entry =
      (c6Row, [], ["Failed to parse entry time: " ++ "bad"]) :=
  ⟨rfl, by decide,
   (entry_time_parse_failure defaultNoiseConfig c6Row c4Draws "bad" rfl
     (by decide) (by norm_num [c4Draws, defaultNoiseConfig])).1 c6Row [] rfl⟩

lemma calculate_off_hours_printing_le (num_commands total_pages : Int)
    (pattern : PrintPattern) (mal : Bool) (d : PrintDraws)
    (hc : 0 ≤ num_commands) (hp : 0 ≤ total_pages)
    (h0 : 0 ≤ d.off_ratio) (h1 : d.off_ratio ≤ 1) :
    (calculate_off_hours_printing num_commands total_pages pattern mal d).1 ≤
      num_commands ∧
    (calculate_off_hours_printing num_commands total_pages pattern mal d).2 ≤
      total_pages := by
  have hcq : (0 : ℚ) ≤ (num_commands : ℚ) := by exact_mod_cast hc
  have hpq : (0 : ℚ) ≤ (total_pages : ℚ) := by exact_mod_cast hp
  have hcm : (num_commands : ℚ) * d.off_ratio ≤ (num_commands : ℚ) :=
    calc (num_commands : ℚ) * d.off_ratio ≤ (num_commands : ℚ) * 1 :=
          mul_le_mul_of_nonneg_left h1 hcq
      _ = (num_commands : ℚ) := mul_one _
  have hpm : (total_pages : ℚ) * d.off_ratio ≤ (total_pages : ℚ) :=
    calc (total_pages : ℚ) * d.off_ratio ≤ (total_pages : ℚ) * 1 :=
          mul_le_mul_of_nonneg_left h1 hpq
      _ = (total_pages : ℚ) := mul_one _
  unfold calculate_off_hours_printing
  simp only
  split <;> split <;>
    first
      | exact ⟨max_le hc (pyInt_le_of_le_intCast (mul_nonneg hcq h0) hcm),
          max_le hp (pyInt_le_of_le_intCast (mul_nonneg hpq h0) hpm)⟩
      | exact ⟨hc, hp⟩

lemma calculate_off_hours_burning_le (num_requests : Int)
    (pattern : BurnPattern) (mal : Bool) (d : BurnDraws)
    (hn : 0 ≤ num_requests) (h0 : 0 ≤ d.off_ratio) (h1 : d.off_ratio ≤ 1) :
    calculate_off_hours_burning num_requests pattern mal d ≤ num_requests := by
  have hnq : (0 : ℚ) ≤ (num_requests : ℚ) := by exact_mod_cast hn
  have hnm : (num_requests : ℚ) * d.off_ratio ≤ (num_requests : ℚ) :=
    calc (num_requests : ℚ) * d.off_ratio ≤ (num_requests : ℚ) * 1 :=
          mul_le_mul_of_nonneg_left h1 hnq
      _ = (num_requests : ℚ) := mul_one _
  unfold calculate_off_hours_burning
  simp only
  split
  · exact max_le hn (pyInt_le_of_le_intCast (mul_nonneg hnq h0) hnm)
  · exact hn

/-- C3 (amended): at sampler emission every off-hours count is at most its
total (print commands, printed pages, burn requests, empty records
included); after the noise pass only the printed-pages inequality is
guaranteed — the pass bumps off-hours burn requests and off-hours print
commands without re-capping them (see the counterexample). -/
theorem off_hours_le_totals :
    (∀ (patterns : String → PrintPattern) (employee : Employee)
      (mal abroad : Bool) (d : PrintDraws),
      0 ≤ d.off_ratio → d.off_ratio ≤ 1 →
      (generate_print_activity patterns employee mal abroad d).num_print_commands_off_hours ≤
        (generate_print_activity patterns employee mal abroad d).num_print_commands ∧
      (generate_print_activity patterns employee mal abroad d).num_printed_pages_off_hours ≤
        (generate_print_activity patterns employee mal abroad d).total_printed_pages) ∧
    (∀ (patterns : String → BurnPattern) (employee : Employee)
      (mal abroad : Bool) (d : BurnDraws) (r : BurnRecord),
      0 ≤ d.off_ratio → d.off_ratio ≤ 1 →
      generate_burn_activity patterns employee mal abroad d = some r →
      r.num_burn_requests_off_hours ≤ r.num_burn_requests) ∧
    (∀ (cfg : NoiseConfig) (row : NoiseRow) (d : FullNoiseDraws),
      0 ≤ row.total_printed_pages →
      row.num_printed_pages_off_hours ≤ row.total_printed_pages →
      0 ≤ d.print_d.pages_unif →
      (inject_full_noise cfg row d).1.num_printed_pages_off_hours ≤
        (inject_full_noise cfg row d).1.total_printed_pages) := by
  refine ⟨?_, ?_, ?_⟩
  · intro patterns employee mal abroad d h0 h1
    unfold generate_print_activity
    split
    · simp [emptyPrintActivity]
    · split
      · simp [emptyPrintActivity]
      · simp only
        split
        · simp [emptyPrintActivity]
        · simp only
          have hbase : (0 : Int) ≤ max 1 (d.commands_poisson : Int) :=
            le_trans zero_le_one (le_max_left _ _)
          have hextra : (0 : Int) ≤ (d.extra_poisson : Int) :=
            Int.natCast_nonneg _
          have hc : (0 : Int) ≤
              (if ((max 1 (pyInt (d.pages_gamma * get_malicious_multiplier mal d)) : Int) : ℚ) >
                  (if mal then (patterns employee.behavioral_group).print_volume.pages_mean * 5
                   else (patterns employee.behavioral_group).print_volume.pages_mean) * 2 then
                max 1 (d.commands_poisson : Int) + (d.extra_poisson : Int)
              else max 1 (d.commands_poisson : Int)) := by
            split <;> omega
          have hp : (0 : Int) ≤
              max 1 (pyInt (d.pages_gamma * get_malicious_multiplier mal d)) :=
            le_trans zero_le_one (le_max_left _ _)
          exact calculate_off_hours_printing_le _ _ _ mal d hc hp h0 h1
  · intro patterns employee mal abroad d r h0 h1
    revert r
    unfold generate_burn_activity
    simp only
    repeat' split
    all_goals intro r hr
    all_goals cases hr
    all_goals first
      | exact le_refl (0 : Int)
      | (simp only
         refine calculate_off_hours_burning_le _ _ mal d ?_ h0 h1
         exact le_trans zero_le_one (le_max_left _ _))
  · intro cfg row d hp hle hu
    have h1 := inject_burn_noise_pages_off_hours cfg row [] d.burn
    have h2 := inject_burn_noise_total_printed_pages cfg row [] d.burn
    have h3 := inject_print_noise_pages_off_hours cfg
      (inject_burn_noise cfg row [] d.burn).1
      (inject_burn_noise cfg row [] d.burn).2 d.print_d
    have h4 := inject_print_noise_total_pages_ge cfg
      (inject_burn_noise cfg row [] d.burn).1
      (inject_burn_noise cfg row [] d.burn).2 d.print_d
      (by rw [h2]; exact hp) hu
    have h5 := inject_entry_time_noise_pages_off_hours cfg
      (inject_print_noise cfg (inject_burn_noise cfg row [] d.burn).1
        (inject_burn_noise cfg row [] d.burn).2 d.print_d).1
      (inject_print_noise cfg (inject_burn_noise cfg row [] d.burn).1
        (inject_burn_noise cfg row [] d.burn).2 d.print_d).2 d.entry
    have h6 := inject_entry_time_noise_total_printed_pages cfg
      (inject_print_noise cfg (inject_burn_noise cfg row [] d.burn).1
        (inject_burn_noise cfg row [] d.burn).2 d.print_d).1
      (inject_print_noise cfg (inject_burn_noise cfg row [] d.burn).1
        (inject_burn_noise cfg row [] d.burn).2 d.print_d).2 d.entry
    have hbk1 : (inject_full_noise cfg row d).1.num_printed_pages_off_hours =
        (inject_entry_time_noise cfg
          (inject_print_noise cfg (inject_burn_noise cfg row [] d.burn).1
            (inject_burn_noise cfg row [] d.burn).2 d.print_d).1
          (inject_print_noise cfg (inject_burn_noise cfg row [] d.burn).1
            (inject_burn_noise cfg row [] d.burn).2 d.print_d).2 d.entry).1.num_printed_pages_off_hours := by
      show (noiseBookkeeping _ _).num_printed_pages_off_hours = _
      unfold noiseBookkeeping
      split <;> rfl
    have hbk2 : (inject_full_noise cfg row d).1.total_printed_pages =
        (inject_entry_time_noise cfg
          (inject_print_noise cfg (inject_burn_noise cfg row [] d.burn).1
            (inject_burn_noise cfg row [] d.burn).2 d.print_d).1
          (inject_print_noise cfg (inject_burn_noise cfg row [] d.burn).1
            (inject_burn_noise cfg row [] d.burn).2 d.print_d).2 d.entry).1.total_printed_pages := by
      show (noiseBookkeeping _ _).total_printed_pages = _
      unfold noiseBookkeeping
      split <;> rfl
    rw [hbk1, hbk2, h5, h6, h3, h1]
    omega

theorem off_hours_le_totals_witness :
    (0 : ℚ) ≤ (1 / 5 : ℚ) ∧
    (generate_print_activity c7Patterns empA false false c7Draws).num_print_commands_off_hours ≤
      (generate_print_activity c7Patterns empA false false c7Draws).num_print_commands :=
  ⟨by norm_num,
   (off_hours_le_totals.1 c7Patterns empA false false c7Draws
     (by norm_num [c7Draws]) (by norm_num [c7Draws])).1⟩
